import Mathlib

/-!
Verification development for the DeskFit motion repetition detection engine.

The definitions below are a shallow embedding of the per-frame detection
logic of `usePoseDetection` (src/src/utils/date.ts, the full version with
One-Euro smoothing, squat calibration and ten exercises, lines 167-1090).

Modelling conventions:
* JS numbers are modelled as `ℚ`.  All constants of the source
  (0.25, 0.2, 0.92, 1.9, 2.0, 800, ...) are exact rationals, so `ℚ`
  reproduces the comparisons of the source exactly for rational inputs.
* A keypoint is a named 2D point; `keypoints.find(k => k.name === n)` is
  `findKp`.  The confidence score is never read by the detection code and
  is therefore omitted.
* `Math.hypot(dx, dy) < t` (resp. `>`, `≤`) is encoded as
  `dx^2 + dy^2 < t^2` etc.  This is equivalent whenever `t ≥ 0`, which
  holds at every use site (the thresholds are built from absolute values
  and distances); the encoding keeps the model inside `ℚ`.
* `Math.sqrt(variance) <= 6` is encoded as `variance ≤ 36` (both sides
  nonnegative, squaring is monotone).
* The detection step consumes the smoothed keypoints (`smoothed`) and the
  raw keypoints (`raw`); the svend-press branch of the source reads the
  raw array, every other branch reads the smoothed one.  The One-Euro
  smoother itself is modelled separately (`euroFilter` below).
* Mutable refs of the React hook become fields of `DetState`; one call of
  `detect` on a successfully estimated pose becomes one application of
  `detectStep`.
-/

/-- A 2D body keypoint as produced by the pose estimator. -/
structure KP where
  name : String
  x : ℚ
  y : ℚ
deriving Repr, DecidableEq

/-- A pose is the list of keypoints of one frame. -/
abbrev Pose := List KP

/-- Translation of `keypoints.find(k => k.name === name)`. -/
def findKp : Pose → String → Option KP
  | [], _ => none
  | k :: rest, n => if k.name = n then some k else findKp rest n

/-- Translation of the JS falsy-or `v || 1` for a numeric `v`. -/
def jsOrOne (q : ℚ) : ℚ := if q = 0 then 1 else q

/-- Translation of `Math.max(...arr)` for the (always nonempty) rolling
window; the `[]` case is unreachable at every use site. -/
def listMax : List ℚ → ℚ
  | [] => 0
  | h :: t => t.foldl max h

/-- Translation of `arr.reduce((s, v) => s + v, 0) / arr.length`. -/
def listMean (l : List ℚ) : ℚ := (l.foldl (· + ·) 0) / (l.length : ℚ)

/-- Translation of
`arr.reduce((s, v) => s + (v - mean) * (v - mean), 0) / arr.length`. -/
def listVariance (l : List ℚ) : ℚ :=
  (l.foldl (fun acc v => acc + (v - listMean l) * (v - listMean l)) 0) / (l.length : ℚ)

/-- The mutable per-session refs of the hook that the detection logic
reads or writes (lines 224-252 of the source). -/
structure DetState where
  lastArmUp : Bool
  lastLeftCurlUp : Bool
  lastRightCurlUp : Bool
  lastLeftTricepsExtended : Bool
  lastRightTricepsExtended : Bool
  bandWide : Bool
  svendExtended : Bool
  squatBaselineCaptured : Bool
  squatBaselineShoulderY : Option ℚ
  squatBaselineTorsoLen : Option ℚ
  squatRecentTorsoLens : List ℚ
  lastRepTime : ℚ
  repsCount : ℕ
deriving Repr, DecidableEq

/-- Initial values of all refs when the component mounts. -/
def initDetState : DetState :=
  ⟨false, false, false, false, false, false, false, false, none, none, [], 0, 0⟩

/-- The debounce constant `REP_DEBOUNCE_MS = 800`. -/
def REP_DEBOUNCE_MS : ℚ := 800

/-- Helper of the source: both wrists above their respective shoulders,
computed on the smoothed keypoints; missing keypoints give `false`
 (the `!!` coercion). -/
def armsAboveShoulders (sm : Pose) : Bool :=
  match findKp sm "left_wrist", findKp sm "right_wrist",
        findKp sm "left_shoulder", findKp sm "right_shoulder" with
  | some lw, some rw, some ls, some rs =>
      decide (lw.y < ls.y) && decide (rw.y < rs.y)
  | _, _, _, _ => false

/-- Branch for shoulder presses / lateral raises / jumping jacks /
low-to-high chest flies (lines 628-635): rising edge of
`armsAboveShoulders`, debounced, count clamped to the target. -/
def armsStep (T : ℕ) (sm : Pose) (now : ℚ) (s : DetState) : DetState :=
  let cond := armsAboveShoulders sm
  let s1 :=
    if cond && !s.lastArmUp && decide (REP_DEBOUNCE_MS < now - s.lastRepTime) then
      { s with repsCount := min (s.repsCount + 1) T, lastRepTime := now }
    else s
  { s1 with lastArmUp := cond }

/-- Calibration phase of the squat branch (lines 702-724): push the
current torso length into the bounded window (capacity 10) and, while no
baseline is captured and at least `min(10, 4)` samples exist, capture the
baseline when the current torso length is at least 92 percent of the
window maximum and the window standard deviation is at most 6 (encoded as
variance at most 36). -/
def squatObserve (avgShoulderY currentTorsoLen : ℚ) (s : DetState) : DetState :=
  let arr1 := s.squatRecentTorsoLens ++ [currentTorsoLen]
  let arr := if 10 < arr1.length then arr1.tail else arr1
  let windowMax := listMax arr
  if !s.squatBaselineCaptured && decide (4 ≤ arr.length) then
    let relToMax := currentTorsoLen / jsOrOne windowMax
    if decide ((92 : ℚ)/100 ≤ relToMax) && decide (listVariance arr ≤ 36) then
      { s with squatRecentTorsoLens := arr,
               squatBaselineShoulderY := some avgShoulderY,
               squatBaselineTorsoLen := some currentTorsoLen,
               squatBaselineCaptured := true }
    else { s with squatRecentTorsoLens := arr }
  else { s with squatRecentTorsoLens := arr }

/-- Branch for squats (lines 687-742): run the calibration phase, then
count a debounced rising edge of the hip dropping below
`waist + 0.2 * torso` relative to the (possibly provisional) baseline. -/
def squatStep (T : ℕ) (sm : Pose) (now : ℚ) (s : DetState) : DetState :=
  match findKp sm "left_hip", findKp sm "right_hip",
        findKp sm "left_shoulder", findKp sm "right_shoulder" with
  | some lh, some rh, some ls, some rs =>
      let avgHipY := (lh.y + rh.y) / 2
      let avgShoulderY := (ls.y + rs.y) / 2
      let currentTorsoLen := jsOrOne |avgShoulderY - avgHipY|
      let s1 := squatObserve avgShoulderY currentTorsoLen s
      let baselineShoulderY := s1.squatBaselineShoulderY.getD avgShoulderY
      let baselineTorso := jsOrOne (s1.squatBaselineTorsoLen.getD currentTorsoLen)
      let waistY := baselineShoulderY + (1 : ℚ)/2 * baselineTorso
      let squatThresholdHipY := waistY + (1 : ℚ)/5 * baselineTorso
      let isSquatting := decide (squatThresholdHipY ≤ avgHipY)
      let s2 :=
        if isSquatting && !s1.lastArmUp && decide (REP_DEBOUNCE_MS < now - s1.lastRepTime) then
          { s1 with repsCount := min (s1.repsCount + 1) T, lastRepTime := now }
        else s1
      { s2 with lastArmUp := isSquatting }
  | _, _, _, _ => s

/-- Branch for knee raises (lines 743-769): exactly one knee above its
hip plus a torso-scaled allowance, rising edge. -/
def kneeStep (T : ℕ) (sm : Pose) (now : ℚ) (s : DetState) : DetState :=
  match findKp sm "left_knee", findKp sm "right_knee",
        findKp sm "left_hip", findKp sm "right_hip",
        findKp sm "left_shoulder", findKp sm "right_shoulder" with
  | some lk, some rk, some lh, some rh, some ls, some rs =>
      let avgHipY := (lh.y + rh.y) / 2
      let avgShoulderY := (ls.y + rs.y) / 2
      let torsoLen := jsOrOne |avgShoulderY - avgHipY|
      let allowance := (8 : ℚ)/100 * torsoLen
      let leftKneeUp := decide (lk.y < lh.y + allowance)
      let rightKneeUp := decide (rk.y < rh.y + allowance)
      let singleKneeUp := (leftKneeUp && !rightKneeUp) || (rightKneeUp && !leftKneeUp)
      let s1 :=
        if singleKneeUp && !s.lastArmUp && decide (REP_DEBOUNCE_MS < now - s.lastRepTime) then
          { s with repsCount := min (s.repsCount + 1) T, lastRepTime := now }
        else s
      { s1 with lastArmUp := singleKneeUp }
  | _, _, _, _, _, _ => s

/-- Left-arm block of the bicep-curl branch (lines 777-787): latch on
wrist above elbow, rep counted on the debounced return below the elbow. -/
def bicepLeftStep (T : ℕ) (sm : Pose) (now : ℚ) (s : DetState) : DetState :=
  match findKp sm "left_wrist", findKp sm "left_elbow" with
  | some lw, some le =>
      let leftCurled := decide (lw.y < le.y)
      if leftCurled && !s.lastLeftCurlUp then
        { s with lastLeftCurlUp := true }
      else if !leftCurled && s.lastLeftCurlUp &&
              decide (REP_DEBOUNCE_MS < now - s.lastRepTime) then
        { s with repsCount := min (s.repsCount + 1) T, lastRepTime := now,
                 lastLeftCurlUp := false }
      else s
  | _, _ => s

/-- Right-arm block of the bicep-curl branch (lines 788-798). -/
def bicepRightStep (T : ℕ) (sm : Pose) (now : ℚ) (s : DetState) : DetState :=
  match findKp sm "right_wrist", findKp sm "right_elbow" with
  | some rw, some re =>
      let rightCurled := decide (rw.y < re.y)
      if rightCurled && !s.lastRightCurlUp then
        { s with lastRightCurlUp := true }
      else if !rightCurled && s.lastRightCurlUp &&
              decide (REP_DEBOUNCE_MS < now - s.lastRepTime) then
        { s with repsCount := min (s.repsCount + 1) T, lastRepTime := now,
                 lastRightCurlUp := false }
      else s
  | _, _ => s

/-- Branch for bicep curls (lines 770-798): the left-arm block runs
before the right-arm block on the same frame. -/
def bicepStep (T : ℕ) (sm : Pose) (now : ℚ) (s : DetState) : DetState :=
  bicepRightStep T sm now (bicepLeftStep T sm now s)

/-- Average eye height used as the form gate of the triceps branch
 (lines 807-811); `none` when an eye keypoint is missing. -/
def avgEyeY (sm : Pose) : Option ℚ :=
  match findKp sm "left_eye", findKp sm "right_eye" with
  | some le, some re => some ((le.y + re.y) / 2)
  | _, _ => none

/-- Left-arm block of the triceps-extension branch (lines 813-830):
gated on the elbow being above average eye level; latch on the flexed
position, rep on the debounced return to extended. -/
def tricepsLeftStep (T : ℕ) (sm : Pose) (now : ℚ) (s : DetState) : DetState :=
  match findKp sm "left_wrist", findKp sm "left_elbow", avgEyeY sm with
  | some lw, some lel, some e =>
      let elbowAboveEye := decide (lel.y < e)
      let wristAboveElbow := decide (lw.y < lel.y)
      if elbowAboveEye then
        if !wristAboveElbow && !s.lastLeftTricepsExtended then
          { s with lastLeftTricepsExtended := true }
        else if wristAboveElbow && s.lastLeftTricepsExtended &&
                decide (REP_DEBOUNCE_MS < now - s.lastRepTime) then
          { s with repsCount := min (s.repsCount + 1) T, lastRepTime := now,
                   lastLeftTricepsExtended := false }
        else s
      else s
  | _, _, _ => s

/-- Right-arm block of the triceps-extension branch (lines 832-849). -/
def tricepsRightStep (T : ℕ) (sm : Pose) (now : ℚ) (s : DetState) : DetState :=
  match findKp sm "right_wrist", findKp sm "right_elbow", avgEyeY sm with
  | some rw, some rel, some e =>
      let elbowAboveEye := decide (rel.y < e)
      let wristAboveElbow := decide (rw.y < rel.y)
      if elbowAboveEye then
        if !wristAboveElbow && !s.lastRightTricepsExtended then
          { s with lastRightTricepsExtended := true }
        else if wristAboveElbow && s.lastRightTricepsExtended &&
                decide (REP_DEBOUNCE_MS < now - s.lastRepTime) then
          { s with repsCount := min (s.repsCount + 1) T, lastRepTime := now,
                   lastRightTricepsExtended := false }
        else s
      else s
  | _, _, _ => s

/-- Branch for triceps extensions (lines 799-849): the left-arm block
runs before the right-arm block on the same frame. -/
def tricepsStep (T : ℕ) (sm : Pose) (now : ℚ) (s : DetState) : DetState :=
  tricepsRightStep T sm now (tricepsLeftStep T sm now s)

/-- The "narrow" test of the band pull-apart branch for one wrist:
`Math.hypot(wx - sx, wy - sy) < 2.0 * shoulderRadius`, encoded squared
 (the threshold is nonnegative). -/
def bandNarrow (w sh : KP) (shoulderRadius : ℚ) : Bool :=
  decide ((w.x - sh.x) ^ 2 + (w.y - sh.y) ^ 2 < (2 * shoulderRadius) ^ 2)

/-- Both wrists inside the narrow radius of their own shoulder, on the
smoothed keypoints; `false` when a needed keypoint is missing (in the
source the whole branch is skipped in that case, counting nothing). -/
def bandNarrowBoth (sm : Pose) : Bool :=
  match findKp sm "left_wrist", findKp sm "right_wrist",
        findKp sm "left_shoulder", findKp sm "right_shoulder" with
  | some lw, some rw, some ls, some rs =>
      bandNarrow lw ls (|ls.x - rs.x| / 2) && bandNarrow rw rs (|ls.x - rs.x| / 2)
  | _, _, _, _ => false

/-- Branch for band pull-aparts (lines 850-903): hysteresis latch on the
wide position, rep counted on the debounced return of both wrists into
the narrow radius. -/
def bandStep (T : ℕ) (sm : Pose) (now : ℚ) (s : DetState) : DetState :=
  match findKp sm "left_wrist", findKp sm "right_wrist",
        findKp sm "left_shoulder", findKp sm "right_shoulder",
        findKp sm "left_hip", findKp sm "right_hip" with
  | some lw, some rw, some ls, some rs, some lh, some rh =>
      let shoulderWidth := |ls.x - rs.x|
      let wristDistance := |lw.x - rw.x|
      let avgShoulderY := (ls.y + rs.y) / 2
      let avgHipY := (lh.y + rh.y) / 2
      let torsoLength := jsOrOne |avgShoulderY - avgHipY|
      let wristsAtShoulderHeight :=
        decide (|lw.y - avgShoulderY| < (1 : ℚ)/2 * torsoLength) &&
        decide (|rw.y - avgShoulderY| < (1 : ℚ)/2 * torsoLength)
      let shoulderRadius := shoulderWidth / 2
      let leftNarrow := bandNarrow lw ls shoulderRadius
      let rightNarrow := bandNarrow rw rs shoulderRadius
      let narrowBoth := leftNarrow && rightNarrow
      let wideBoth := decide ((19 : ℚ)/10 * shoulderWidth < wristDistance) &&
        wristsAtShoulderHeight
      let nowSinceLast := now - s.lastRepTime
      let canEnterWide := wideBoth && !s.bandWide && !leftNarrow && !rightNarrow &&
        decide (REP_DEBOUNCE_MS < nowSinceLast)
      if canEnterWide then
        { s with bandWide := true }
      else if s.bandWide && narrowBoth && decide (REP_DEBOUNCE_MS < nowSinceLast) then
        { s with repsCount := min (s.repsCount + 1) T, lastRepTime := now,
                 bandWide := false }
      else s
  | _, _, _, _, _, _ => s

/-- Branch for the svend chest press (lines 972-1008), reading the RAW
keypoints: latch when either wrist is beyond 1.5 times its
shoulder-to-elbow length from the shoulder, rep on the debounced return
of both wrists inside that radius.  `Math.hypot` comparisons are encoded
squared (`1.5^2 = 9/4`). -/
def svendStep (T : ℕ) (raw : Pose) (now : ℚ) (s : DetState) : DetState :=
  match findKp raw "left_wrist", findKp raw "right_wrist",
        findKp raw "left_shoulder", findKp raw "right_shoulder",
        findKp raw "left_elbow", findKp raw "right_elbow" with
  | some lw, some rw, some ls, some rs, some le, some re =>
      let leftArmLenSq := (ls.x - le.x) ^ 2 + (ls.y - le.y) ^ 2
      let rightArmLenSq := (rs.x - re.x) ^ 2 + (rs.y - re.y) ^ 2
      let leftDistSq := (lw.x - ls.x) ^ 2 + (lw.y - ls.y) ^ 2
      let rightDistSq := (rw.x - rs.x) ^ 2 + (rw.y - rs.y) ^ 2
      let leftExtended := decide ((9 : ℚ)/4 * leftArmLenSq < leftDistSq)
      let rightExtended := decide ((9 : ℚ)/4 * rightArmLenSq < rightDistSq)
      let eitherExtended := leftExtended || rightExtended
      let bothRetracted := decide (leftDistSq ≤ (9 : ℚ)/4 * leftArmLenSq) &&
        decide (rightDistSq ≤ (9 : ℚ)/4 * rightArmLenSq)
      let nowSinceLast := now - s.lastRepTime
      if eitherExtended && !s.svendExtended && decide (REP_DEBOUNCE_MS < nowSinceLast) then
        { s with svendExtended := true }
      else if s.svendExtended && bothRetracted &&
              decide (REP_DEBOUNCE_MS < nowSinceLast) then
        { s with repsCount := min (s.repsCount + 1) T, lastRepTime := now,
                 svendExtended := false }
      else s
  | _, _, _, _, _, _ => s

/-- One processed frame of the detection loop (lines 619-1066): the
if-else chain on the exercise string dispatching to the branch above. -/
def detectStep (ex : String) (T : ℕ) (raw sm : Pose) (now : ℚ) (s : DetState) : DetState :=
  if ex = "shoulder_presses" ∨ ex = "lateral_raise" ∨ ex = "jumping_jacks" ∨
     ex = "low_to_high_chest_flies" then
    armsStep T sm now s
  else if ex = "squats" then squatStep T sm now s
  else if ex = "knee_raises" then kneeStep T sm now s
  else if ex = "bicep_curls" then bicepStep T sm now s
  else if ex = "triceps_extensions" then tricepsStep T sm now s
  else if ex = "band_pull_aparts" then bandStep T sm now s
  else if ex = "svend_chest_press" then svendStep T raw now s
  else s

/-- One frame of input to the detection step: the raw keypoints, the
smoothed keypoints derived from them, and the `Date.now()` timestamp in
milliseconds. -/
structure Frame where
  raw : Pose
  smoothed : Pose
  now : ℚ
deriving Repr, DecidableEq

/-- Folding the detection step over one frame. -/
def frameStep (ex : String) (T : ℕ) (s : DetState) (f : Frame) : DetState :=
  detectStep ex T f.raw f.smoothed f.now s

/-- Processing a finite list of frames in order. -/
def procFrames (ex : String) (T : ℕ) (fs : List Frame) (s : DetState) : DetState :=
  fs.foldl (frameStep ex T) s

/-- The session state after `n` frames of the stream `fr`, starting from
the freshly-initialised refs. -/
def stateAt (ex : String) (T : ℕ) (fr : ℕ → Frame) : ℕ → DetState
  | 0 => initDetState
  | n + 1 => frameStep ex T (stateAt ex T fr n) (fr n)

/-- Teardown of the effect (lines 1080-1089): the cleanup cancels the
animation frame, disposes the model, and resets exactly `lastArmUpRef`
and `repsCountRef`; every other ref keeps its value. -/
def cleanupState (s : DetState) : DetState :=
  { s with lastArmUp := false, repsCount := 0 }

/-! ### Step characterization

Every detector branch either leaves the rep count and the last-rep
timestamp unchanged, or accepts a rep: the debounce window has passed,
the count becomes `min (count + 1) target` and the timestamp becomes
`now`.  This disjunction is the common shape behind the monotonicity,
clamping, debounce and single-increment claims. -/

/-- The two possible effects of one detector branch on the rep counter. -/
def StepCases (now : ℚ) (T : ℕ) (s s' : DetState) : Prop :=
  (s'.repsCount = s.repsCount ∧ s'.lastRepTime = s.lastRepTime) ∨
  (REP_DEBOUNCE_MS < now - s.lastRepTime ∧
   s'.repsCount = min (s.repsCount + 1) T ∧ s'.lastRepTime = now)

lemma stepCases_comp {now : ℚ} {T : ℕ} {s s1 s2 : DetState}
    (h1 : StepCases now T s s1) (h2 : StepCases now T s1 s2) :
    StepCases now T s s2 := by
  rcases h1 with ⟨hc, hr⟩ | ⟨hd, hc, hr⟩
  · rcases h2 with ⟨hc2, hr2⟩ | ⟨hd2, hc2, hr2⟩
    · exact Or.inl ⟨hc2.trans hc, hr2.trans hr⟩
    · rw [hr] at hd2
      rw [hc] at hc2
      exact Or.inr ⟨hd2, hc2, hr2⟩
  · rcases h2 with ⟨hc2, hr2⟩ | ⟨hd2, hc2, hr2⟩
    · exact Or.inr ⟨hd, hc2.trans hc, hr2.trans hr⟩
    · rw [hr] at hd2
      norm_num [REP_DEBOUNCE_MS] at hd2

lemma armsStep_cases (T : ℕ) (sm : Pose) (now : ℚ) (s : DetState) :
    StepCases now T s (armsStep T sm now s) := by
  unfold StepCases armsStep
  dsimp only
  split_ifs with h
  · simp only [Bool.and_eq_true, decide_eq_true_eq] at h
    exact Or.inr ⟨h.2, rfl, rfl⟩
  · exact Or.inl ⟨rfl, rfl⟩

lemma squatObserve_spec (a c : ℚ) (s : DetState) :
    (squatObserve a c s).repsCount = s.repsCount ∧
    (squatObserve a c s).lastRepTime = s.lastRepTime ∧
    (squatObserve a c s).lastArmUp = s.lastArmUp := by
  unfold squatObserve
  dsimp only
  split_ifs <;> exact ⟨rfl, rfl, rfl⟩

lemma squatStep_cases (T : ℕ) (sm : Pose) (now : ℚ) (s : DetState) :
    StepCases now T s (squatStep T sm now s) := by
  unfold StepCases squatStep
  split
  · dsimp only
    rename_i lh rh ls rs _ _ _ _
    have hobs := squatObserve_spec ((ls.y + rs.y) / 2)
      (jsOrOne |(ls.y + rs.y) / 2 - (lh.y + rh.y) / 2|) s
    split_ifs with h
    · simp only [Bool.and_eq_true, decide_eq_true_eq] at h
      refine Or.inr ⟨?_, ?_, rfl⟩
      · rw [← hobs.2.1]
        exact h.2
      · rw [hobs.1]
    · exact Or.inl ⟨hobs.1, hobs.2.1⟩
  · exact Or.inl ⟨rfl, rfl⟩

lemma kneeStep_cases (T : ℕ) (sm : Pose) (now : ℚ) (s : DetState) :
    StepCases now T s (kneeStep T sm now s) := by
  unfold StepCases kneeStep
  split
  · dsimp only
    split_ifs with h
    · simp only [Bool.and_eq_true, decide_eq_true_eq] at h
      exact Or.inr ⟨h.2, rfl, rfl⟩
    · exact Or.inl ⟨rfl, rfl⟩
  · exact Or.inl ⟨rfl, rfl⟩

lemma bicepLeftStep_cases (T : ℕ) (sm : Pose) (now : ℚ) (s : DetState) :
    StepCases now T s (bicepLeftStep T sm now s) := by
  unfold StepCases bicepLeftStep
  split
  · dsimp only
    split_ifs with h1 h2
    · exact Or.inl ⟨rfl, rfl⟩
    · simp only [Bool.and_eq_true, decide_eq_true_eq] at h2
      exact Or.inr ⟨h2.2, rfl, rfl⟩
    · exact Or.inl ⟨rfl, rfl⟩
  · exact Or.inl ⟨rfl, rfl⟩

lemma bicepRightStep_cases (T : ℕ) (sm : Pose) (now : ℚ) (s : DetState) :
    StepCases now T s (bicepRightStep T sm now s) := by
  unfold StepCases bicepRightStep
  split
  · dsimp only
    split_ifs with h1 h2
    · exact Or.inl ⟨rfl, rfl⟩
    · simp only [Bool.and_eq_true, decide_eq_true_eq] at h2
      exact Or.inr ⟨h2.2, rfl, rfl⟩
    · exact Or.inl ⟨rfl, rfl⟩
  · exact Or.inl ⟨rfl, rfl⟩

lemma tricepsLeftStep_cases (T : ℕ) (sm : Pose) (now : ℚ) (s : DetState) :
    StepCases now T s (tricepsLeftStep T sm now s) := by
  unfold StepCases tricepsLeftStep
  split
  · dsimp only
    split_ifs with h0 h1 h2
    · exact Or.inl ⟨rfl, rfl⟩
    · simp only [Bool.and_eq_true, decide_eq_true_eq] at h2
      exact Or.inr ⟨h2.2, rfl, rfl⟩
    · exact Or.inl ⟨rfl, rfl⟩
    · exact Or.inl ⟨rfl, rfl⟩
  · exact Or.inl ⟨rfl, rfl⟩

lemma tricepsRightStep_cases (T : ℕ) (sm : Pose) (now : ℚ) (s : DetState) :
    StepCases now T s (tricepsRightStep T sm now s) := by
  unfold StepCases tricepsRightStep
  split
  · dsimp only
    split_ifs with h0 h1 h2
    · exact Or.inl ⟨rfl, rfl⟩
    · simp only [Bool.and_eq_true, decide_eq_true_eq] at h2
      exact Or.inr ⟨h2.2, rfl, rfl⟩
    · exact Or.inl ⟨rfl, rfl⟩
    · exact Or.inl ⟨rfl, rfl⟩
  · exact Or.inl ⟨rfl, rfl⟩

lemma bandStep_cases (T : ℕ) (sm : Pose) (now : ℚ) (s : DetState) :
    StepCases now T s (bandStep T sm now s) := by
  unfold StepCases bandStep
  split
  · dsimp only
    split_ifs with h1 h2
    · exact Or.inl ⟨rfl, rfl⟩
    · simp only [Bool.and_eq_true, decide_eq_true_eq] at h2
      exact Or.inr ⟨h2.2, rfl, rfl⟩
    · exact Or.inl ⟨rfl, rfl⟩
  · exact Or.inl ⟨rfl, rfl⟩

lemma svendStep_cases (T : ℕ) (raw : Pose) (now : ℚ) (s : DetState) :
    StepCases now T s (svendStep T raw now s) := by
  unfold StepCases svendStep
  split
  · dsimp only
    split_ifs with h1 h2
    · exact Or.inl ⟨rfl, rfl⟩
    · simp only [Bool.and_eq_true, decide_eq_true_eq] at h2
      exact Or.inr ⟨h2.2, rfl, rfl⟩
    · exact Or.inl ⟨rfl, rfl⟩
  · exact Or.inl ⟨rfl, rfl⟩

lemma detectStep_cases (ex : String) (T : ℕ) (raw sm : Pose) (now : ℚ) (s : DetState) :
    StepCases now T s (detectStep ex T raw sm now s) := by
  unfold detectStep
  split_ifs <;>
    first
      | exact armsStep_cases ..
      | exact squatStep_cases ..
      | exact kneeStep_cases ..
      | exact stepCases_comp (bicepLeftStep_cases ..) (bicepRightStep_cases ..)
      | exact stepCases_comp (tricepsLeftStep_cases ..) (tricepsRightStep_cases ..)
      | exact bandStep_cases ..
      | exact svendStep_cases ..
      | exact Or.inl ⟨rfl, rfl⟩

/-! ### Calibration freezing

Only the squat calibration phase writes the baseline fields, and it is
guarded by the captured flag, so once captured the baseline is frozen. -/

/-- The three baseline fields of the calibration store are unchanged
between two states. -/
def CalibEq (s s' : DetState) : Prop :=
  s'.squatBaselineCaptured = s.squatBaselineCaptured ∧
  s'.squatBaselineShoulderY = s.squatBaselineShoulderY ∧
  s'.squatBaselineTorsoLen = s.squatBaselineTorsoLen

lemma calibEq_trans {s1 s2 s3 : DetState} (h1 : CalibEq s1 s2) (h2 : CalibEq s2 s3) :
    CalibEq s1 s3 :=
  ⟨h2.1.trans h1.1, h2.2.1.trans h1.2.1, h2.2.2.trans h1.2.2⟩

lemma squatObserve_calib (a c : ℚ) (s : DetState)
    (h : s.squatBaselineCaptured = true) : CalibEq s (squatObserve a c s) := by
  unfold CalibEq squatObserve
  dsimp only
  rw [h]
  simp

lemma squatStep_calib (T : ℕ) (sm : Pose) (now : ℚ) (s : DetState)
    (h : s.squatBaselineCaptured = true) : CalibEq s (squatStep T sm now s) := by
  unfold squatStep
  split
  · dsimp only
    rename_i lh rh ls rs _ _ _ _
    have hobs := squatObserve_calib ((ls.y + rs.y) / 2)
      (jsOrOne |(ls.y + rs.y) / 2 - (lh.y + rh.y) / 2|) s h
    split_ifs with hf
    · exact hobs
    · exact hobs
  · exact ⟨rfl, rfl, rfl⟩

lemma armsStep_calib (T : ℕ) (sm : Pose) (now : ℚ) (s : DetState) :
    CalibEq s (armsStep T sm now s) := by
  unfold CalibEq armsStep
  dsimp only
  split_ifs <;> exact ⟨rfl, rfl, rfl⟩

lemma kneeStep_calib (T : ℕ) (sm : Pose) (now : ℚ) (s : DetState) :
    CalibEq s (kneeStep T sm now s) := by
  unfold CalibEq kneeStep
  split
  · dsimp only
    split_ifs <;> exact ⟨rfl, rfl, rfl⟩
  · exact ⟨rfl, rfl, rfl⟩

lemma bicepLeftStep_calib (T : ℕ) (sm : Pose) (now : ℚ) (s : DetState) :
    CalibEq s (bicepLeftStep T sm now s) := by
  unfold CalibEq bicepLeftStep
  split
  · dsimp only
    split_ifs <;> exact ⟨rfl, rfl, rfl⟩
  · exact ⟨rfl, rfl, rfl⟩

lemma bicepRightStep_calib (T : ℕ) (sm : Pose) (now : ℚ) (s : DetState) :
    CalibEq s (bicepRightStep T sm now s) := by
  unfold CalibEq bicepRightStep
  split
  · dsimp only
    split_ifs <;> exact ⟨rfl, rfl, rfl⟩
  · exact ⟨rfl, rfl, rfl⟩

lemma tricepsLeftStep_calib (T : ℕ) (sm : Pose) (now : ℚ) (s : DetState) :
    CalibEq s (tricepsLeftStep T sm now s) := by
  unfold CalibEq tricepsLeftStep
  split
  · dsimp only
    split_ifs <;> exact ⟨rfl, rfl, rfl⟩
  · exact ⟨rfl, rfl, rfl⟩

lemma tricepsRightStep_calib (T : ℕ) (sm : Pose) (now : ℚ) (s : DetState) :
    CalibEq s (tricepsRightStep T sm now s) := by
  unfold CalibEq tricepsRightStep
  split
  · dsimp only
    split_ifs <;> exact ⟨rfl, rfl, rfl⟩
  · exact ⟨rfl, rfl, rfl⟩

lemma bandStep_calib (T : ℕ) (sm : Pose) (now : ℚ) (s : DetState) :
    CalibEq s (bandStep T sm now s) := by
  unfold CalibEq bandStep
  split
  · dsimp only
    split_ifs <;> exact ⟨rfl, rfl, rfl⟩
  · exact ⟨rfl, rfl, rfl⟩

lemma svendStep_calib (T : ℕ) (raw : Pose) (now : ℚ) (s : DetState) :
    CalibEq s (svendStep T raw now s) := by
  unfold CalibEq svendStep
  split
  · dsimp only
    split_ifs <;> exact ⟨rfl, rfl, rfl⟩
  · exact ⟨rfl, rfl, rfl⟩

lemma detectStep_calib (ex : String) (T : ℕ) (raw sm : Pose) (now : ℚ) (s : DetState)
    (h : s.squatBaselineCaptured = true) :
    CalibEq s (detectStep ex T raw sm now s) := by
  unfold detectStep
  split_ifs <;>
    first
      | exact armsStep_calib ..
      | exact squatStep_calib _ _ _ _ h
      | exact kneeStep_calib ..
      | exact calibEq_trans (bicepLeftStep_calib ..) (bicepRightStep_calib ..)
      | exact calibEq_trans (tricepsLeftStep_calib ..) (tricepsRightStep_calib ..)
      | exact bandStep_calib ..
      | exact svendStep_calib ..
      | exact ⟨rfl, rfl, rfl⟩

/-! ### Run-level counter invariants -/

lemma detectStep_mono_cap (ex : String) (T : ℕ) (raw sm : Pose) (now : ℚ)
    (s : DetState) (hcap : s.repsCount ≤ T) :
    s.repsCount ≤ (detectStep ex T raw sm now s).repsCount ∧
    (detectStep ex T raw sm now s).repsCount ≤ T := by
  rcases detectStep_cases ex T raw sm now s with ⟨hc, _⟩ | ⟨_, hc, _⟩ <;> omega

lemma stateAt_cap (ex : String) (T : ℕ) (fr : ℕ → Frame) (n : ℕ) :
    (stateAt ex T fr n).repsCount ≤ T := by
  induction n with
  | zero => exact Nat.zero_le T
  | succ n ih =>
      exact (detectStep_mono_cap ex T (fr n).raw (fr n).smoothed (fr n).now
        (stateAt ex T fr n) ih).2

lemma stateAt_mono_succ (ex : String) (T : ℕ) (fr : ℕ → Frame) (n : ℕ) :
    (stateAt ex T fr n).repsCount ≤ (stateAt ex T fr (n + 1)).repsCount :=
  (detectStep_mono_cap ex T (fr n).raw (fr n).smoothed (fr n).now
    (stateAt ex T fr n) (stateAt_cap ex T fr n)).1

lemma stateAt_mono (ex : String) (T : ℕ) (fr : ℕ → Frame) {n m : ℕ} (h : n ≤ m) :
    (stateAt ex T fr n).repsCount ≤ (stateAt ex T fr m).repsCount := by
  induction m with
  | zero => simp_all
  | succ m ih =>
      rcases Nat.lt_or_ge n (m + 1) with hlt | hge
      · exact le_trans (ih (Nat.lt_succ_iff.mp hlt)) (stateAt_mono_succ ex T fr m)
      · have : n = m + 1 := le_antisymm h hge
        subst this
        exact le_rfl

/-! ### Dispatch of the exercise string -/

lemma detectStep_shoulder (T : ℕ) (raw sm : Pose) (now : ℚ) (s : DetState) :
    detectStep "shoulder_presses" T raw sm now s = armsStep T sm now s := rfl

lemma detectStep_lateral (T : ℕ) (raw sm : Pose) (now : ℚ) (s : DetState) :
    detectStep "lateral_raise" T raw sm now s = armsStep T sm now s := rfl

lemma detectStep_jacks (T : ℕ) (raw sm : Pose) (now : ℚ) (s : DetState) :
    detectStep "jumping_jacks" T raw sm now s = armsStep T sm now s := rfl

lemma detectStep_flies (T : ℕ) (raw sm : Pose) (now : ℚ) (s : DetState) :
    detectStep "low_to_high_chest_flies" T raw sm now s = armsStep T sm now s := rfl

lemma detectStep_squats (T : ℕ) (raw sm : Pose) (now : ℚ) (s : DetState) :
    detectStep "squats" T raw sm now s = squatStep T sm now s := rfl

lemma detectStep_knee (T : ℕ) (raw sm : Pose) (now : ℚ) (s : DetState) :
    detectStep "knee_raises" T raw sm now s = kneeStep T sm now s := rfl

lemma detectStep_bicep (T : ℕ) (raw sm : Pose) (now : ℚ) (s : DetState) :
    detectStep "bicep_curls" T raw sm now s = bicepStep T sm now s := rfl

lemma detectStep_triceps (T : ℕ) (raw sm : Pose) (now : ℚ) (s : DetState) :
    detectStep "triceps_extensions" T raw sm now s = tricepsStep T sm now s := rfl

lemma detectStep_band (T : ℕ) (raw sm : Pose) (now : ℚ) (s : DetState) :
    detectStep "band_pull_aparts" T raw sm now s = bandStep T sm now s := rfl

lemma detectStep_svend (T : ℕ) (raw sm : Pose) (now : ℚ) (s : DetState) :
    detectStep "svend_chest_press" T raw sm now s = svendStep T raw now s := rfl

/-! ### Acceptance and stillness of a step -/

lemma detectStep_accept (ex : String) (T : ℕ) (raw sm : Pose) (now : ℚ)
    (s : DetState) (hcap : s.repsCount ≤ T)
    (h : (detectStep ex T raw sm now s).repsCount ≠ s.repsCount) :
    REP_DEBOUNCE_MS < now - s.lastRepTime ∧
    (detectStep ex T raw sm now s).lastRepTime = now ∧
    s.repsCount < T ∧
    (detectStep ex T raw sm now s).repsCount = s.repsCount + 1 := by
  rcases detectStep_cases ex T raw sm now s with ⟨hc, _⟩ | ⟨hd, hc, hr⟩
  · exact absurd hc h
  · refine ⟨hd, hr, ?_, ?_⟩ <;> omega

lemma detectStep_still (ex : String) (T : ℕ) (raw sm : Pose) (now : ℚ)
    (s : DetState) (hlt : s.repsCount < T)
    (h : (detectStep ex T raw sm now s).repsCount = s.repsCount) :
    (detectStep ex T raw sm now s).lastRepTime = s.lastRepTime := by
  rcases detectStep_cases ex T raw sm now s with ⟨_, hr⟩ | ⟨_, hc, _⟩
  · exact hr
  · omega

lemma stateAt_succ (ex : String) (T : ℕ) (fr : ℕ → Frame) (n : ℕ) :
    stateAt ex T fr (n + 1) =
      detectStep ex T (fr n).raw (fr n).smoothed (fr n).now (stateAt ex T fr n) := rfl

lemma stateAt_lastRep_frozen (ex : String) (T : ℕ) (fr : ℕ → Frame) (i : ℕ) :
    ∀ j, i + 1 ≤ j →
    (∀ m, i < m → m < j →
      (stateAt ex T fr (m + 1)).repsCount = (stateAt ex T fr m).repsCount) →
    (∀ m, i < m → m < j → (stateAt ex T fr m).repsCount < T) →
    (stateAt ex T fr j).lastRepTime = (stateAt ex T fr (i + 1)).lastRepTime := by
  intro j
  induction j with
  | zero => omega
  | succ j ih =>
      intro hj hstable hlt
      rcases Nat.eq_or_lt_of_le hj with heq | hlt2
      · rw [← heq]
      · have hstep : (stateAt ex T fr (j + 1)).lastRepTime =
            (stateAt ex T fr j).lastRepTime := by
          rw [stateAt_succ]
          exact detectStep_still ex T (fr j).raw (fr j).smoothed (fr j).now
            (stateAt ex T fr j) (hlt j (by omega) (by omega))
            (hstable j (by omega) (by omega))
        rw [hstep]
        exact ih (by omega) (fun m h1 h2 => hstable m h1 (by omega))
          (fun m h1 h2 => hlt m h1 (by omega))

/-- C2: in every session, consecutive accepted rep increments are more
than 800 ms apart (hence at least 800 ms apart): acceptance at frame `j`
requires `now - lastRepTime > 800`, and `lastRepTime` still holds the
timestamp of the previous accepted increment at frame `i`. -/
theorem C2_debounce_spacing (ex : String) (T : ℕ) (fr : ℕ → Frame) (i j : ℕ)
    (hij : i < j)
    (hi : (stateAt ex T fr (i + 1)).repsCount ≠ (stateAt ex T fr i).repsCount)
    (hj : (stateAt ex T fr (j + 1)).repsCount ≠ (stateAt ex T fr j).repsCount)
    (hbetween : ∀ m, i < m → m < j →
      (stateAt ex T fr (m + 1)).repsCount = (stateAt ex T fr m).repsCount) :
    REP_DEBOUNCE_MS ≤ (fr j).now - (fr i).now ∧
    REP_DEBOUNCE_MS < (fr j).now - (fr i).now := by
  have hacc_i := detectStep_accept ex T (fr i).raw (fr i).smoothed (fr i).now
    (stateAt ex T fr i) (stateAt_cap ex T fr i) (by rw [← stateAt_succ]; exact hi)
  have hacc_j := detectStep_accept ex T (fr j).raw (fr j).smoothed (fr j).now
    (stateAt ex T fr j) (stateAt_cap ex T fr j) (by rw [← stateAt_succ]; exact hj)
  have hfrozen : (stateAt ex T fr j).lastRepTime =
      (stateAt ex T fr (i + 1)).lastRepTime := by
    refine stateAt_lastRep_frozen ex T fr i j (by omega) hbetween ?_
    intro m h1 h2
    exact lt_of_le_of_lt (stateAt_mono ex T fr (Nat.le_of_lt h2)) hacc_j.2.2.1
  have hlast : (stateAt ex T fr (i + 1)).lastRepTime = (fr i).now := by
    rw [stateAt_succ]
    exact hacc_i.2.1
  have hd := hacc_j.1
  rw [hfrozen, hlast] at hd
  exact ⟨le_of_lt hd, hd⟩

/-- C5: once the squat calibration baseline is captured, processing any
further frames never changes the frozen `shoulderY` and `torsoLength`
values, and the captured flag stays set (so at most one capture happens
in a session). -/
theorem C5_calibration_capture_once (ex : String) (T : ℕ) (fr : ℕ → Frame)
    (n m : ℕ) (hnm : n ≤ m)
    (hc : (stateAt ex T fr n).squatBaselineCaptured = true) :
    (stateAt ex T fr m).squatBaselineCaptured = true ∧
    (stateAt ex T fr m).squatBaselineShoulderY = (stateAt ex T fr n).squatBaselineShoulderY ∧
    (stateAt ex T fr m).squatBaselineTorsoLen = (stateAt ex T fr n).squatBaselineTorsoLen := by
  induction m with
  | zero =>
      have : n = 0 := Nat.le_zero.mp hnm
      subst this
      exact ⟨hc, rfl, rfl⟩
  | succ m ih =>
      rcases Nat.eq_or_lt_of_le hnm with heq | hlt
      · rw [← heq]
        exact ⟨hc, rfl, rfl⟩
      · have prev := ih (Nat.lt_succ_iff.mp hlt)
        have hstep := detectStep_calib ex T (fr m).raw (fr m).smoothed (fr m).now
          (stateAt ex T fr m) prev.1
        rw [stateAt_succ]
        exact ⟨hstep.1.trans prev.1, hstep.2.1.trans prev.2.1, hstep.2.2.trans prev.2.2⟩

/-- C10: a single processed frame increases the session rep count by at
most one, for every exercise including the per-arm ones: the arm counted
first sets `lastRepTime := now`, so the other arm's debounce check
`now - lastRepTime > 800` fails within the same frame. -/
theorem C10_frame_increment_le_one (ex : String) (T : ℕ) (raw sm : Pose)
    (now : ℚ) (s : DetState) :
    (detectStep ex T raw sm now s).repsCount ≤ s.repsCount + 1 := by
  rcases detectStep_cases ex T raw sm now s with ⟨hc, _⟩ | ⟨_, hc, _⟩ <;> omega

/-! ### Simulated qualifying sessions

For the `count = min(N, T)` part of the monotonic-cap property we build,
for every exercise, an explicit periodic frame sequence in which each
cycle contains exactly one qualifying target-edge transition, cycles are
2000 ms apart (beyond the 800 ms debounce window), and prove by induction
that after `N` cycles the count is `min N T`. -/

/-- Shorthand keypoint constructor. -/
def kpAt (n : String) (x y : ℚ) : KP := ⟨n, x, y⟩

/-- Timestamp of the rest frame of cycle `k` (milliseconds). -/
def restT (k : ℕ) : ℚ := 2000 * k + 2000

/-- Timestamp of the firing frame of cycle `k` (milliseconds). -/
def fireT (k : ℕ) : ℚ := 2000 * k + 3000

def armsDownPose : Pose :=
  [kpAt "left_wrist" 0 200, kpAt "right_wrist" 10 200,
   kpAt "left_shoulder" 0 100, kpAt "right_shoulder" 10 100]

def armsUpPose : Pose :=
  [kpAt "left_wrist" 0 50, kpAt "right_wrist" 10 50,
   kpAt "left_shoulder" 0 100, kpAt "right_shoulder" 10 100]

def squatRestPose : Pose :=
  [kpAt "left_hip" 0 50, kpAt "right_hip" 10 50,
   kpAt "left_shoulder" 0 100, kpAt "right_shoulder" 10 100]

def squatFirePose : Pose :=
  [kpAt "left_hip" 0 200, kpAt "right_hip" 10 200,
   kpAt "left_shoulder" 0 100, kpAt "right_shoulder" 10 100]

lemma armsDown_eval : armsAboveShoulders armsDownPose = false := by rfl

lemma armsUp_eval : armsAboveShoulders armsUpPose = true := by rfl

lemma fkSqR_lh : findKp squatRestPose "left_hip" = some (kpAt "left_hip" 0 50) := rfl
lemma fkSqR_rh : findKp squatRestPose "right_hip" = some (kpAt "right_hip" 10 50) := rfl
lemma fkSqR_ls : findKp squatRestPose "left_shoulder" = some (kpAt "left_shoulder" 0 100) := rfl
lemma fkSqR_rs : findKp squatRestPose "right_shoulder" = some (kpAt "right_shoulder" 10 100) := rfl
lemma fkSqF_lh : findKp squatFirePose "left_hip" = some (kpAt "left_hip" 0 200) := rfl
lemma fkSqF_rh : findKp squatFirePose "right_hip" = some (kpAt "right_hip" 10 200) := rfl
lemma fkSqF_ls : findKp squatFirePose "left_shoulder" = some (kpAt "left_shoulder" 0 100) := rfl
lemma fkSqF_rs : findKp squatFirePose "right_shoulder" = some (kpAt "right_shoulder" 10 100) := rfl

lemma armsCycle (T k : ℕ) (s : DetState)
    (hc : s.repsCount = min k T) (hr : s.lastRepTime ≤ 2000 * (k : ℚ) + 1000) :
    (armsStep T armsUpPose (fireT k) (armsStep T armsDownPose (restT k) s)).repsCount
      = min (k + 1) T ∧
    (armsStep T armsUpPose (fireT k) (armsStep T armsDownPose (restT k) s)).lastRepTime
      ≤ 2000 * ((k : ℚ) + 1) + 1000 := by
  have hd : REP_DEBOUNCE_MS < fireT k - s.lastRepTime := by
    unfold REP_DEBOUNCE_MS fireT
    linarith
  simp [armsStep, armsDown_eval, armsUp_eval, hd]
  constructor
  · rw [hc]; omega
  · unfold fireT; linarith

lemma squatCycle (T k : ℕ) (s : DetState)
    (hc : s.repsCount = min k T) (hr : s.lastRepTime ≤ 2000 * (k : ℚ) + 1000)
    (hcap : s.squatBaselineCaptured = true)
    (hbs : s.squatBaselineShoulderY = some 100)
    (hbt : s.squatBaselineTorsoLen = some 50) :
    (squatStep T squatFirePose (fireT k) (squatStep T squatRestPose (restT k) s)).repsCount
      = min (k + 1) T ∧
    (squatStep T squatFirePose (fireT k) (squatStep T squatRestPose (restT k) s)).lastRepTime
      ≤ 2000 * ((k : ℚ) + 1) + 1000 ∧
    (squatStep T squatFirePose (fireT k) (squatStep T squatRestPose (restT k) s)).squatBaselineCaptured = true ∧
    (squatStep T squatFirePose (fireT k) (squatStep T squatRestPose (restT k) s)).squatBaselineShoulderY = some 100 ∧
    (squatStep T squatFirePose (fireT k) (squatStep T squatRestPose (restT k) s)).squatBaselineTorsoLen = some 50 := by
  have hd : REP_DEBOUNCE_MS < fireT k - s.lastRepTime := by
    unfold REP_DEBOUNCE_MS fireT
    linarith
  norm_num [squatStep, squatObserve, fkSqR_lh, fkSqR_rh, fkSqR_ls, fkSqR_rs,
    fkSqF_lh, fkSqF_rh, fkSqF_ls, fkSqF_rs, kpAt, jsOrOne, hcap, hbs, hbt, hd]
  refine ⟨?_, ?_⟩
  · rw [hc]; omega
  · unfold fireT; linarith

def kneeRestPose : Pose :=
  [kpAt "left_knee" 0 400, kpAt "right_knee" 10 400,
   kpAt "left_hip" 0 300, kpAt "right_hip" 10 300,
   kpAt "left_shoulder" 0 100, kpAt "right_shoulder" 10 100]

def kneeFirePose : Pose :=
  [kpAt "left_knee" 0 200, kpAt "right_knee" 10 400,
   kpAt "left_hip" 0 300, kpAt "right_hip" 10 300,
   kpAt "left_shoulder" 0 100, kpAt "right_shoulder" 10 100]

lemma fkKnR_lk : findKp kneeRestPose "left_knee" = some (kpAt "left_knee" 0 400) := rfl
lemma fkKnR_rk : findKp kneeRestPose "right_knee" = some (kpAt "right_knee" 10 400) := rfl
lemma fkKnR_lh : findKp kneeRestPose "left_hip" = some (kpAt "left_hip" 0 300) := rfl
lemma fkKnR_rh : findKp kneeRestPose "right_hip" = some (kpAt "right_hip" 10 300) := rfl
lemma fkKnR_ls : findKp kneeRestPose "left_shoulder" = some (kpAt "left_shoulder" 0 100) := rfl
lemma fkKnR_rs : findKp kneeRestPose "right_shoulder" = some (kpAt "right_shoulder" 10 100) := rfl
lemma fkKnF_lk : findKp kneeFirePose "left_knee" = some (kpAt "left_knee" 0 200) := rfl
lemma fkKnF_rk : findKp kneeFirePose "right_knee" = some (kpAt "right_knee" 10 400) := rfl
lemma fkKnF_lh : findKp kneeFirePose "left_hip" = some (kpAt "left_hip" 0 300) := rfl
lemma fkKnF_rh : findKp kneeFirePose "right_hip" = some (kpAt "right_hip" 10 300) := rfl
lemma fkKnF_ls : findKp kneeFirePose "left_shoulder" = some (kpAt "left_shoulder" 0 100) := rfl
lemma fkKnF_rs : findKp kneeFirePose "right_shoulder" = some (kpAt "right_shoulder" 10 100) := rfl

lemma kneeCycle (T k : ℕ) (s : DetState)
    (hc : s.repsCount = min k T) (hr : s.lastRepTime ≤ 2000 * (k : ℚ) + 1000) :
    (kneeStep T kneeFirePose (fireT k) (kneeStep T kneeRestPose (restT k) s)).repsCount
      = min (k + 1) T ∧
    (kneeStep T kneeFirePose (fireT k) (kneeStep T kneeRestPose (restT k) s)).lastRepTime
      ≤ 2000 * ((k : ℚ) + 1) + 1000 := by
  have hd : REP_DEBOUNCE_MS < fireT k - s.lastRepTime := by
    unfold REP_DEBOUNCE_MS fireT
    linarith
  norm_num [kneeStep, fkKnR_lk, fkKnR_rk, fkKnR_lh, fkKnR_rh, fkKnR_ls, fkKnR_rs,
    fkKnF_lk, fkKnF_rk, fkKnF_lh, fkKnF_rh, fkKnF_ls, fkKnF_rs, kpAt, jsOrOne, hd]
  refine ⟨?_, ?_⟩
  · rw [hc]; omega
  · unfold fireT; linarith

def curlPose : Pose := [kpAt "left_wrist" 0 50, kpAt "left_elbow" 0 100]

def uncurlPose : Pose := [kpAt "left_wrist" 0 150, kpAt "left_elbow" 0 100]

lemma fkCu_lw : findKp curlPose "left_wrist" = some (kpAt "left_wrist" 0 50) := rfl
lemma fkCu_le : findKp curlPose "left_elbow" = some (kpAt "left_elbow" 0 100) := rfl
lemma fkCu_rw : findKp curlPose "right_wrist" = none := rfl
lemma fkCu_re : findKp curlPose "right_elbow" = none := rfl
lemma fkUn_lw : findKp uncurlPose "left_wrist" = some (kpAt "left_wrist" 0 150) := rfl
lemma fkUn_le : findKp uncurlPose "left_elbow" = some (kpAt "left_elbow" 0 100) := rfl
lemma fkUn_rw : findKp uncurlPose "right_wrist" = none := rfl
lemma fkUn_re : findKp uncurlPose "right_elbow" = none := rfl

lemma bicepCycle (T k : ℕ) (s : DetState)
    (hc : s.repsCount = min k T) (hr : s.lastRepTime ≤ 2000 * (k : ℚ) + 1000)
    (hflag : s.lastLeftCurlUp = false) :
    (bicepStep T uncurlPose (fireT k) (bicepStep T curlPose (restT k) s)).repsCount
      = min (k + 1) T ∧
    (bicepStep T uncurlPose (fireT k) (bicepStep T curlPose (restT k) s)).lastRepTime
      ≤ 2000 * ((k : ℚ) + 1) + 1000 ∧
    (bicepStep T uncurlPose (fireT k) (bicepStep T curlPose (restT k) s)).lastLeftCurlUp = false := by
  have hd : REP_DEBOUNCE_MS < fireT k - s.lastRepTime := by
    unfold REP_DEBOUNCE_MS fireT
    linarith
  norm_num [bicepStep, bicepLeftStep, bicepRightStep, fkCu_lw, fkCu_le, fkCu_rw, fkCu_re,
    fkUn_lw, fkUn_le, fkUn_rw, fkUn_re, kpAt, hflag, hd]
  refine ⟨?_, ?_⟩
  · rw [hc]; omega
  · unfold fireT; linarith

def tricepsFlexPose : Pose :=
  [kpAt "left_eye" 0 100, kpAt "right_eye" 10 100,
   kpAt "left_wrist" 0 80, kpAt "left_elbow" 0 50]

def tricepsExtPose : Pose :=
  [kpAt "left_eye" 0 100, kpAt "right_eye" 10 100,
   kpAt "left_wrist" 0 20, kpAt "left_elbow" 0 50]

lemma fkTf_le : findKp tricepsFlexPose "left_eye" = some (kpAt "left_eye" 0 100) := rfl
lemma fkTf_re : findKp tricepsFlexPose "right_eye" = some (kpAt "right_eye" 10 100) := rfl
lemma fkTf_lw : findKp tricepsFlexPose "left_wrist" = some (kpAt "left_wrist" 0 80) := rfl
lemma fkTf_lel : findKp tricepsFlexPose "left_elbow" = some (kpAt "left_elbow" 0 50) := rfl
lemma fkTf_rw : findKp tricepsFlexPose "right_wrist" = none := rfl
lemma fkTf_rel : findKp tricepsFlexPose "right_elbow" = none := rfl
lemma fkTe_le : findKp tricepsExtPose "left_eye" = some (kpAt "left_eye" 0 100) := rfl
lemma fkTe_re : findKp tricepsExtPose "right_eye" = some (kpAt "right_eye" 10 100) := rfl
lemma fkTe_lw : findKp tricepsExtPose "left_wrist" = some (kpAt "left_wrist" 0 20) := rfl
lemma fkTe_lel : findKp tricepsExtPose "left_elbow" = some (kpAt "left_elbow" 0 50) := rfl
lemma fkTe_rw : findKp tricepsExtPose "right_wrist" = none := rfl
lemma fkTe_rel : findKp tricepsExtPose "right_elbow" = none := rfl

lemma tricepsCycle (T k : ℕ) (s : DetState)
    (hc : s.repsCount = min k T) (hr : s.lastRepTime ≤ 2000 * (k : ℚ) + 1000)
    (hflag : s.lastLeftTricepsExtended = false) :
    (tricepsStep T tricepsExtPose (fireT k) (tricepsStep T tricepsFlexPose (restT k) s)).repsCount
      = min (k + 1) T ∧
    (tricepsStep T tricepsExtPose (fireT k) (tricepsStep T tricepsFlexPose (restT k) s)).lastRepTime
      ≤ 2000 * ((k : ℚ) + 1) + 1000 ∧
    (tricepsStep T tricepsExtPose (fireT k) (tricepsStep T tricepsFlexPose (restT k) s)).lastLeftTricepsExtended = false := by
  have hd : REP_DEBOUNCE_MS < fireT k - s.lastRepTime := by
    unfold REP_DEBOUNCE_MS fireT
    linarith
  norm_num [tricepsStep, tricepsLeftStep, tricepsRightStep, avgEyeY,
    fkTf_le, fkTf_re, fkTf_lw, fkTf_lel, fkTf_rw, fkTf_rel,
    fkTe_le, fkTe_re, fkTe_lw, fkTe_lel, fkTe_rw, fkTe_rel, kpAt, hflag, hd]
  refine ⟨?_, ?_⟩
  · rw [hc]; omega
  · unfold fireT; linarith

def bandWidePose : Pose :=
  [kpAt "left_wrist" (-150) 100, kpAt "right_wrist" 150 100,
   kpAt "left_shoulder" (-50) 100, kpAt "right_shoulder" 50 100,
   kpAt "left_hip" (-50) 300, kpAt "right_hip" 50 300]

def bandNarrowPose : Pose :=
  [kpAt "left_wrist" (-10) 100, kpAt "right_wrist" 10 100,
   kpAt "left_shoulder" (-50) 100, kpAt "right_shoulder" 50 100,
   kpAt "left_hip" (-50) 300, kpAt "right_hip" 50 300]

lemma fkBw_lw : findKp bandWidePose "left_wrist" = some (kpAt "left_wrist" (-150) 100) := rfl
lemma fkBw_rw : findKp bandWidePose "right_wrist" = some (kpAt "right_wrist" 150 100) := rfl
lemma fkBw_ls : findKp bandWidePose "left_shoulder" = some (kpAt "left_shoulder" (-50) 100) := rfl
lemma fkBw_rs : findKp bandWidePose "right_shoulder" = some (kpAt "right_shoulder" 50 100) := rfl
lemma fkBw_lh : findKp bandWidePose "left_hip" = some (kpAt "left_hip" (-50) 300) := rfl
lemma fkBw_rh : findKp bandWidePose "right_hip" = some (kpAt "right_hip" 50 300) := rfl
lemma fkBn_lw : findKp bandNarrowPose "left_wrist" = some (kpAt "left_wrist" (-10) 100) := rfl
lemma fkBn_rw : findKp bandNarrowPose "right_wrist" = some (kpAt "right_wrist" 10 100) := rfl
lemma fkBn_ls : findKp bandNarrowPose "left_shoulder" = some (kpAt "left_shoulder" (-50) 100) := rfl
lemma fkBn_rs : findKp bandNarrowPose "right_shoulder" = some (kpAt "right_shoulder" 50 100) := rfl
lemma fkBn_lh : findKp bandNarrowPose "left_hip" = some (kpAt "left_hip" (-50) 300) := rfl
lemma fkBn_rh : findKp bandNarrowPose "right_hip" = some (kpAt "right_hip" 50 300) := rfl

lemma bandCycle (T k : ℕ) (s : DetState)
    (hc : s.repsCount = min k T) (hr : s.lastRepTime ≤ 2000 * (k : ℚ) + 1000)
    (hflag : s.bandWide = false) :
    (bandStep T bandNarrowPose (fireT k) (bandStep T bandWidePose (restT k) s)).repsCount
      = min (k + 1) T ∧
    (bandStep T bandNarrowPose (fireT k) (bandStep T bandWidePose (restT k) s)).lastRepTime
      ≤ 2000 * ((k : ℚ) + 1) + 1000 ∧
    (bandStep T bandNarrowPose (fireT k) (bandStep T bandWidePose (restT k) s)).bandWide = false := by
  have hd0 : REP_DEBOUNCE_MS < restT k - s.lastRepTime := by
    unfold REP_DEBOUNCE_MS restT
    linarith
  have hd : REP_DEBOUNCE_MS < fireT k - s.lastRepTime := by
    unfold REP_DEBOUNCE_MS fireT
    linarith
  norm_num [bandStep, bandNarrow, fkBw_lw, fkBw_rw, fkBw_ls, fkBw_rs, fkBw_lh, fkBw_rh,
    fkBn_lw, fkBn_rw, fkBn_ls, fkBn_rs, fkBn_lh, fkBn_rh, kpAt, jsOrOne, hflag, hd0, hd]
  refine ⟨?_, ?_⟩
  · rw [hc]; omega
  · unfold fireT; linarith

def svendExtPose : Pose :=
  [kpAt "left_wrist" (-150) 100, kpAt "right_wrist" 50 160,
   kpAt "left_shoulder" (-50) 100, kpAt "right_shoulder" 50 100,
   kpAt "left_elbow" (-50) 150, kpAt "right_elbow" 50 150]

def svendRetPose : Pose :=
  [kpAt "left_wrist" (-60) 100, kpAt "right_wrist" 50 160,
   kpAt "left_shoulder" (-50) 100, kpAt "right_shoulder" 50 100,
   kpAt "left_elbow" (-50) 150, kpAt "right_elbow" 50 150]

lemma fkSe_lw : findKp svendExtPose "left_wrist" = some (kpAt "left_wrist" (-150) 100) := rfl
lemma fkSe_rw : findKp svendExtPose "right_wrist" = some (kpAt "right_wrist" 50 160) := rfl
lemma fkSe_ls : findKp svendExtPose "left_shoulder" = some (kpAt "left_shoulder" (-50) 100) := rfl
lemma fkSe_rs : findKp svendExtPose "right_shoulder" = some (kpAt "right_shoulder" 50 100) := rfl
lemma fkSe_le : findKp svendExtPose "left_elbow" = some (kpAt "left_elbow" (-50) 150) := rfl
lemma fkSe_re : findKp svendExtPose "right_elbow" = some (kpAt "right_elbow" 50 150) := rfl
lemma fkSr_lw : findKp svendRetPose "left_wrist" = some (kpAt "left_wrist" (-60) 100) := rfl
lemma fkSr_rw : findKp svendRetPose "right_wrist" = some (kpAt "right_wrist" 50 160) := rfl
lemma fkSr_ls : findKp svendRetPose "left_shoulder" = some (kpAt "left_shoulder" (-50) 100) := rfl
lemma fkSr_rs : findKp svendRetPose "right_shoulder" = some (kpAt "right_shoulder" 50 100) := rfl
lemma fkSr_le : findKp svendRetPose "left_elbow" = some (kpAt "left_elbow" (-50) 150) := rfl
lemma fkSr_re : findKp svendRetPose "right_elbow" = some (kpAt "right_elbow" 50 150) := rfl

lemma svendCycle (T k : ℕ) (s : DetState)
    (hc : s.repsCount = min k T) (hr : s.lastRepTime ≤ 2000 * (k : ℚ) + 1000)
    (hflag : s.svendExtended = false) :
    (svendStep T svendRetPose (fireT k) (svendStep T svendExtPose (restT k) s)).repsCount
      = min (k + 1) T ∧
    (svendStep T svendRetPose (fireT k) (svendStep T svendExtPose (restT k) s)).lastRepTime
      ≤ 2000 * ((k : ℚ) + 1) + 1000 ∧
    (svendStep T svendRetPose (fireT k) (svendStep T svendExtPose (restT k) s)).svendExtended = false := by
  have hd0 : REP_DEBOUNCE_MS < restT k - s.lastRepTime := by
    unfold REP_DEBOUNCE_MS restT
    linarith
  have hd : REP_DEBOUNCE_MS < fireT k - s.lastRepTime := by
    unfold REP_DEBOUNCE_MS fireT
    linarith
  norm_num [svendStep, fkSe_lw, fkSe_rw, fkSe_ls, fkSe_rs, fkSe_le, fkSe_re,
    fkSr_lw, fkSr_rw, fkSr_ls, fkSr_rs, fkSr_le, fkSr_re, kpAt, hflag, hd0, hd]
  refine ⟨?_, ?_⟩
  · rw [hc]; omega
  · unfold fireT; linarith

/-- The ten exercise strings accepted by the detection branch. -/
def allKinds : List String :=
  ["shoulder_presses", "lateral_raise", "jumping_jacks", "low_to_high_chest_flies",
   "squats", "knee_raises", "bicep_curls", "triceps_extensions", "band_pull_aparts",
   "svend_chest_press"]

/-- Rest pose of one simulated cycle (the side of the target edge the
detector must see before the qualifying transition). -/
def restPose : String → Pose
  | "squats" => squatRestPose
  | "knee_raises" => kneeRestPose
  | "bicep_curls" => curlPose
  | "triceps_extensions" => tricepsFlexPose
  | "band_pull_aparts" => bandWidePose
  | "svend_chest_press" => svendExtPose
  | _ => armsDownPose

/-- Firing pose of one simulated cycle (the frame whose transition is the
qualifying target edge that counts one rep). -/
def firePose : String → Pose
  | "squats" => squatFirePose
  | "knee_raises" => kneeFirePose
  | "bicep_curls" => uncurlPose
  | "triceps_extensions" => tricepsExtPose
  | "band_pull_aparts" => bandNarrowPose
  | "svend_chest_press" => svendRetPose
  | _ => armsUpPose

/-- One simulated cycle: a rest frame followed by the firing frame,
2000 ms after the previous cycle. -/
def cycleFrames (ex : String) (k : ℕ) : List Frame :=
  [⟨restPose ex, restPose ex, restT k⟩, ⟨firePose ex, firePose ex, fireT k⟩]

/-- A standing calibration frame for the squat session. -/
def standFrame (t : ℚ) : Frame := ⟨squatRestPose, squatRestPose, t⟩

/-- Session prelude: the squat session starts with four stable standing
frames so the calibration baseline gets captured before counting begins;
they contain no target-edge transition.  Other exercises need no
prelude. -/
def simPrelude : String → List Frame
  | "squats" => [standFrame 100, standFrame 200, standFrame 300, standFrame 400]
  | _ => []

/-- The simulated session with `N` qualifying target-edge transitions. -/
def simFrames (ex : String) : ℕ → List Frame
  | 0 => simPrelude ex
  | n + 1 => simFrames ex n ++ cycleFrames ex n

/-- Exercise-specific canonical flags between simulated cycles. -/
def ExtraInv (ex : String) (s : DetState) : Prop :=
  (ex = "squats" → s.squatBaselineCaptured = true ∧
    s.squatBaselineShoulderY = some 100 ∧ s.squatBaselineTorsoLen = some 50) ∧
  (ex = "bicep_curls" → s.lastLeftCurlUp = false) ∧
  (ex = "triceps_extensions" → s.lastLeftTricepsExtended = false) ∧
  (ex = "band_pull_aparts" → s.bandWide = false) ∧
  (ex = "svend_chest_press" → s.svendExtended = false)

/-- Invariant after `k` simulated cycles. -/
def SimInv (ex : String) (T k : ℕ) (s : DetState) : Prop :=
  s.repsCount = min k T ∧ s.lastRepTime ≤ 2000 * (k : ℚ) + 1000 ∧ ExtraInv ex s

lemma procFrames_append (ex : String) (T : ℕ) (a b : List Frame) (s : DetState) :
    procFrames ex T (a ++ b) s = procFrames ex T b (procFrames ex T a s) :=
  List.foldl_append ..

lemma squatPrelude_eval (T : ℕ) :
    procFrames "squats" T (simPrelude "squats") initDetState =
      ⟨false, false, false, false, false, false, false, true,
       some 100, some 50, [50, 50, 50, 50], 0, 0⟩ := by
  norm_num [procFrames, simPrelude, standFrame, frameStep, detectStep_squats,
    squatStep, squatObserve, fkSqR_lh, fkSqR_rh, fkSqR_ls, fkSqR_rs, kpAt,
    jsOrOne, listMax, listMean, listVariance, initDetState, REP_DEBOUNCE_MS]

lemma simPrelude_ne (ex : String) (h : ex ≠ "squats") : simPrelude ex = [] := by
  unfold simPrelude
  split
  · exact absurd rfl h
  · rfl

lemma simInv_zero (ex : String) (T : ℕ) :
    SimInv ex T 0 (procFrames ex T (simFrames ex 0) initDetState) := by
  have h0 : simFrames ex 0 = simPrelude ex := rfl
  by_cases hsq : ex = "squats"
  · subst hsq
    rw [h0, squatPrelude_eval T]
    refine ⟨by simp, by norm_num, ?_, ?_, ?_, ?_, ?_⟩
    · intro _
      exact ⟨rfl, rfl, rfl⟩
    all_goals intro h; exact absurd h (by decide)
  · rw [h0, simPrelude_ne ex hsq]
    refine ⟨by simp [procFrames, initDetState], by norm_num [procFrames, initDetState],
      ?_, ?_, ?_, ?_, ?_⟩
    · intro heq
      exact absurd heq hsq
    all_goals intro _; rfl

lemma simInv_step (ex : String) (hex : ex ∈ allKinds) (T k : ℕ) (s : DetState)
    (h : SimInv ex T k s) :
    SimInv ex T (k + 1) (procFrames ex T (cycleFrames ex k) s) := by
  obtain ⟨hc, hr, hextra⟩ := h
  fin_cases hex
  · have hcyc := armsCycle T k s hc hr
    have hred : procFrames "shoulder_presses" T (cycleFrames "shoulder_presses" k) s =
        armsStep T armsUpPose (fireT k) (armsStep T armsDownPose (restT k) s) := rfl
    rw [hred]
    exact ⟨hcyc.1, by push_cast; linarith [hcyc.2],
      fun hq => absurd hq (by decide), fun hq => absurd hq (by decide),
      fun hq => absurd hq (by decide), fun hq => absurd hq (by decide),
      fun hq => absurd hq (by decide)⟩
  · have hcyc := armsCycle T k s hc hr
    have hred : procFrames "lateral_raise" T (cycleFrames "lateral_raise" k) s =
        armsStep T armsUpPose (fireT k) (armsStep T armsDownPose (restT k) s) := rfl
    rw [hred]
    exact ⟨hcyc.1, by push_cast; linarith [hcyc.2],
      fun hq => absurd hq (by decide), fun hq => absurd hq (by decide),
      fun hq => absurd hq (by decide), fun hq => absurd hq (by decide),
      fun hq => absurd hq (by decide)⟩
  · have hcyc := armsCycle T k s hc hr
    have hred : procFrames "jumping_jacks" T (cycleFrames "jumping_jacks" k) s =
        armsStep T armsUpPose (fireT k) (armsStep T armsDownPose (restT k) s) := rfl
    rw [hred]
    exact ⟨hcyc.1, by push_cast; linarith [hcyc.2],
      fun hq => absurd hq (by decide), fun hq => absurd hq (by decide),
      fun hq => absurd hq (by decide), fun hq => absurd hq (by decide),
      fun hq => absurd hq (by decide)⟩
  · have hcyc := armsCycle T k s hc hr
    have hred : procFrames "low_to_high_chest_flies" T
        (cycleFrames "low_to_high_chest_flies" k) s =
        armsStep T armsUpPose (fireT k) (armsStep T armsDownPose (restT k) s) := rfl
    rw [hred]
    exact ⟨hcyc.1, by push_cast; linarith [hcyc.2],
      fun hq => absurd hq (by decide), fun hq => absurd hq (by decide),
      fun hq => absurd hq (by decide), fun hq => absurd hq (by decide),
      fun hq => absurd hq (by decide)⟩
  · have hsq := hextra.1 rfl
    have hcyc := squatCycle T k s hc hr hsq.1 hsq.2.1 hsq.2.2
    have hred : procFrames "squats" T (cycleFrames "squats" k) s =
        squatStep T squatFirePose (fireT k) (squatStep T squatRestPose (restT k) s) := rfl
    rw [hred]
    exact ⟨hcyc.1, by push_cast; linarith [hcyc.2.1],
      fun _ => ⟨hcyc.2.2.1, hcyc.2.2.2.1, hcyc.2.2.2.2⟩,
      fun hq => absurd hq (by decide), fun hq => absurd hq (by decide),
      fun hq => absurd hq (by decide), fun hq => absurd hq (by decide)⟩
  · have hcyc := kneeCycle T k s hc hr
    have hred : procFrames "knee_raises" T (cycleFrames "knee_raises" k) s =
        kneeStep T kneeFirePose (fireT k) (kneeStep T kneeRestPose (restT k) s) := rfl
    rw [hred]
    exact ⟨hcyc.1, by push_cast; linarith [hcyc.2],
      fun hq => absurd hq (by decide), fun hq => absurd hq (by decide),
      fun hq => absurd hq (by decide), fun hq => absurd hq (by decide),
      fun hq => absurd hq (by decide)⟩
  · have hcyc := bicepCycle T k s hc hr (hextra.2.1 rfl)
    have hred : procFrames "bicep_curls" T (cycleFrames "bicep_curls" k) s =
        bicepStep T uncurlPose (fireT k) (bicepStep T curlPose (restT k) s) := rfl
    rw [hred]
    exact ⟨hcyc.1, by push_cast; linarith [hcyc.2.1],
      fun hq => absurd hq (by decide), fun _ => hcyc.2.2,
      fun hq => absurd hq (by decide), fun hq => absurd hq (by decide),
      fun hq => absurd hq (by decide)⟩
  · have hcyc := tricepsCycle T k s hc hr (hextra.2.2.1 rfl)
    have hred : procFrames "triceps_extensions" T (cycleFrames "triceps_extensions" k) s =
        tricepsStep T tricepsExtPose (fireT k) (tricepsStep T tricepsFlexPose (restT k) s) := rfl
    rw [hred]
    exact ⟨hcyc.1, by push_cast; linarith [hcyc.2.1],
      fun hq => absurd hq (by decide), fun hq => absurd hq (by decide),
      fun _ => hcyc.2.2,
      fun hq => absurd hq (by decide), fun hq => absurd hq (by decide)⟩
  · have hcyc := bandCycle T k s hc hr (hextra.2.2.2.1 rfl)
    have hred : procFrames "band_pull_aparts" T (cycleFrames "band_pull_aparts" k) s =
        bandStep T bandNarrowPose (fireT k) (bandStep T bandWidePose (restT k) s) := rfl
    rw [hred]
    exact ⟨hcyc.1, by push_cast; linarith [hcyc.2.1],
      fun hq => absurd hq (by decide), fun hq => absurd hq (by decide),
      fun hq => absurd hq (by decide), fun _ => hcyc.2.2,
      fun hq => absurd hq (by decide)⟩
  · have hcyc := svendCycle T k s hc hr (hextra.2.2.2.2 rfl)
    have hred : procFrames "svend_chest_press" T (cycleFrames "svend_chest_press" k) s =
        svendStep T svendRetPose (fireT k) (svendStep T svendExtPose (restT k) s) := rfl
    rw [hred]
    exact ⟨hcyc.1, by push_cast; linarith [hcyc.2.1],
      fun hq => absurd hq (by decide), fun hq => absurd hq (by decide),
      fun hq => absurd hq (by decide), fun hq => absurd hq (by decide),
      fun _ => hcyc.2.2⟩

lemma simInv_all (ex : String) (hex : ex ∈ allKinds) (T N : ℕ) :
    SimInv ex T N (procFrames ex T (simFrames ex N) initDetState) := by
  induction N with
  | zero => exact simInv_zero ex T
  | succ n ih =>
      have hred : simFrames ex (n + 1) = simFrames ex n ++ cycleFrames ex n := rfl
      rw [hred, procFrames_append]
      exact simInv_step ex hex T n _ ih

/-- C1: for every detector and session with target `T > 0`, the rep count
is monotonically non-decreasing along the session and never exceeds `T`,
and simulating `N` qualifying target-edge transitions, each spaced beyond
the debounce window, yields `count = min N T`. -/
theorem C1_monotone_cap_and_sim :
    (∀ (ex : String) (T : ℕ) (fr : ℕ → Frame) (n m : ℕ), n ≤ m →
      (stateAt ex T fr n).repsCount ≤ (stateAt ex T fr m).repsCount ∧
      (stateAt ex T fr m).repsCount ≤ T) ∧
    (∀ ex ∈ allKinds, ∀ T N : ℕ, 0 < T →
      (procFrames ex T (simFrames ex N) initDetState).repsCount = min N T) := by
  constructor
  · intro ex T fr n m hnm
    exact ⟨stateAt_mono ex T fr hnm, stateAt_cap ex T fr m⟩
  · intro ex hex T N _
    exact (simInv_all ex hex T N).1

theorem C1_witness :
    (stateAt "bicep_curls" 2 (fun _ => ⟨curlPose, curlPose, 0⟩) 1).repsCount ≤
      (stateAt "bicep_curls" 2 (fun _ => ⟨curlPose, curlPose, 0⟩) 4).repsCount ∧
    (stateAt "bicep_curls" 2 (fun _ => ⟨curlPose, curlPose, 0⟩) 4).repsCount ≤ 2 ∧
    (procFrames "bicep_curls" 2 (simFrames "bicep_curls" 5) initDetState).repsCount
      = min 5 2 :=
  ⟨(C1_monotone_cap_and_sim.1 "bicep_curls" 2 (fun _ => ⟨curlPose, curlPose, 0⟩) 1 4
      (by decide)).1,
   (C1_monotone_cap_and_sim.1 "bicep_curls" 2 (fun _ => ⟨curlPose, curlPose, 0⟩) 1 4
      (by decide)).2,
   C1_monotone_cap_and_sim.2 "bicep_curls" (by decide) 2 5 (by decide)⟩

/-- Frame stream for the C2 witness: an accepted rising edge at frame 0,
a reset frame, and a second accepted rising edge at frame 2. -/
def c2fr : ℕ → Frame := fun n =>
  match n with
  | 0 => ⟨armsUpPose, armsUpPose, 1000⟩
  | 1 => ⟨armsDownPose, armsDownPose, 1500⟩
  | _ => ⟨armsUpPose, armsUpPose, 2000⟩

lemma c2w_s1 : stateAt "shoulder_presses" 5 c2fr 1 =
    ⟨true, false, false, false, false, false, false, false, none, none, [], 1000, 1⟩ := by
  have h : stateAt "shoulder_presses" 5 c2fr 1 =
      detectStep "shoulder_presses" 5 (c2fr 0).raw (c2fr 0).smoothed (c2fr 0).now
        initDetState := rfl
  rw [h, detectStep_shoulder]
  norm_num [c2fr, armsStep, armsUp_eval, initDetState, REP_DEBOUNCE_MS]

lemma c2w_s2 : stateAt "shoulder_presses" 5 c2fr 2 =
    ⟨false, false, false, false, false, false, false, false, none, none, [], 1000, 1⟩ := by
  have h : stateAt "shoulder_presses" 5 c2fr 2 =
      detectStep "shoulder_presses" 5 (c2fr 1).raw (c2fr 1).smoothed (c2fr 1).now
        (stateAt "shoulder_presses" 5 c2fr 1) := rfl
  rw [h, c2w_s1, detectStep_shoulder]
  norm_num [c2fr, armsStep, armsDown_eval, REP_DEBOUNCE_MS]

lemma c2w_s3 : stateAt "shoulder_presses" 5 c2fr 3 =
    ⟨true, false, false, false, false, false, false, false, none, none, [], 2000, 2⟩ := by
  have h : stateAt "shoulder_presses" 5 c2fr 3 =
      detectStep "shoulder_presses" 5 (c2fr 2).raw (c2fr 2).smoothed (c2fr 2).now
        (stateAt "shoulder_presses" 5 c2fr 2) := rfl
  rw [h, c2w_s2, detectStep_shoulder]
  norm_num [c2fr, armsStep, armsUp_eval, REP_DEBOUNCE_MS]

lemma c2w_hi : (stateAt "shoulder_presses" 5 c2fr 1).repsCount ≠
    (stateAt "shoulder_presses" 5 c2fr 0).repsCount := by
  rw [c2w_s1]
  exact fun h => by simp [stateAt, initDetState] at h

lemma c2w_hj : (stateAt "shoulder_presses" 5 c2fr 3).repsCount ≠
    (stateAt "shoulder_presses" 5 c2fr 2).repsCount := by
  rw [c2w_s3, c2w_s2]
  decide

lemma c2w_hbetween : ∀ m, 0 < m → m < 2 →
    (stateAt "shoulder_presses" 5 c2fr (m + 1)).repsCount =
    (stateAt "shoulder_presses" 5 c2fr m).repsCount := by
  intro m h1 h2
  have hm : m = 1 := by omega
  subst hm
  rw [c2w_s2, c2w_s1]

theorem C2_witness :
    REP_DEBOUNCE_MS ≤ (c2fr 2).now - (c2fr 0).now ∧
    REP_DEBOUNCE_MS < (c2fr 2).now - (c2fr 0).now :=
  C2_debounce_spacing "shoulder_presses" 5 c2fr 0 2 (by decide) c2w_hi c2w_hj c2w_hbetween

/-- Frame stream for the C5 witness: four stable standing frames capture
the squat baseline, later frames leave it frozen. -/
def c5fr : ℕ → Frame := fun n =>
  match n with
  | 0 => standFrame 100
  | 1 => standFrame 200
  | 2 => standFrame 300
  | _ => standFrame 400

lemma c5w_s4 : stateAt "squats" 5 c5fr 4 =
    ⟨false, false, false, false, false, false, false, true,
     some 100, some 50, [50, 50, 50, 50], 0, 0⟩ := by
  have h : stateAt "squats" 5 c5fr 4 =
      procFrames "squats" 5 (simPrelude "squats") initDetState := rfl
  rw [h, squatPrelude_eval]

theorem C5_witness :
    (stateAt "squats" 5 c5fr 6).squatBaselineCaptured = true ∧
    (stateAt "squats" 5 c5fr 6).squatBaselineShoulderY =
      (stateAt "squats" 5 c5fr 4).squatBaselineShoulderY ∧
    (stateAt "squats" 5 c5fr 6).squatBaselineTorsoLen =
      (stateAt "squats" 5 c5fr 4).squatBaselineTorsoLen :=
  C5_calibration_capture_once "squats" 5 c5fr 4 6 (by decide)
    (by rw [c5w_s4])

/-! ### Edge triggering (claim C3)

The per-frame derived condition of the bicep-curl branch, used to state
the counterexample: the left (right) arm's "curled" boolean of line 778
 (789), `none` when the needed keypoints are missing. -/

/-- Derived target-pose condition of the left bicep-curl arm. -/
def bicepLeftCurled (sm : Pose) : Option Bool :=
  match findKp sm "left_wrist", findKp sm "left_elbow" with
  | some lw, some le => some (decide (lw.y < le.y))
  | _, _ => none

/-- Derived target-pose condition of the right bicep-curl arm. -/
def bicepRightCurled (sm : Pose) : Option Bool :=
  match findKp sm "right_wrist", findKp sm "right_elbow" with
  | some rw, some re => some (decide (rw.y < re.y))
  | _, _ => none

/-- Frames refuting the universal edge-trigger claim: a counted curl, a
second curl whose release is debounced away, then a steady frame on which
the deferred rep fires. -/
def c3frames : List Frame :=
  [⟨curlPose, curlPose, 1000⟩, ⟨uncurlPose, uncurlPose, 1100⟩,
   ⟨curlPose, curlPose, 1200⟩, ⟨uncurlPose, uncurlPose, 1300⟩,
   ⟨uncurlPose, uncurlPose, 2000⟩]

lemma c3w_s1 : procFrames "bicep_curls" 5 (c3frames.take 1) initDetState =
    ⟨false, true, false, false, false, false, false, false, none, none, [], 0, 0⟩ := by
  have h : procFrames "bicep_curls" 5 (c3frames.take 1) initDetState =
      detectStep "bicep_curls" 5 curlPose curlPose 1000 initDetState := rfl
  rw [h, detectStep_bicep]
  norm_num [bicepStep, bicepLeftStep, bicepRightStep, fkCu_lw, fkCu_le, fkCu_rw,
    fkCu_re, kpAt, initDetState, REP_DEBOUNCE_MS]

lemma c3w_s2 : procFrames "bicep_curls" 5 (c3frames.take 2) initDetState =
    ⟨false, false, false, false, false, false, false, false, none, none, [], 1100, 1⟩ := by
  have h : procFrames "bicep_curls" 5 (c3frames.take 2) initDetState =
      detectStep "bicep_curls" 5 uncurlPose uncurlPose 1100
        (procFrames "bicep_curls" 5 (c3frames.take 1) initDetState) := rfl
  rw [h, c3w_s1, detectStep_bicep]
  norm_num [bicepStep, bicepLeftStep, bicepRightStep, fkUn_lw, fkUn_le, fkUn_rw,
    fkUn_re, kpAt, REP_DEBOUNCE_MS]

lemma c3w_s3 : procFrames "bicep_curls" 5 (c3frames.take 3) initDetState =
    ⟨false, true, false, false, false, false, false, false, none, none, [], 1100, 1⟩ := by
  have h : procFrames "bicep_curls" 5 (c3frames.take 3) initDetState =
      detectStep "bicep_curls" 5 curlPose curlPose 1200
        (procFrames "bicep_curls" 5 (c3frames.take 2) initDetState) := rfl
  rw [h, c3w_s2, detectStep_bicep]
  norm_num [bicepStep, bicepLeftStep, bicepRightStep, fkCu_lw, fkCu_le, fkCu_rw,
    fkCu_re, kpAt, REP_DEBOUNCE_MS]

lemma c3w_s4 : procFrames "bicep_curls" 5 (c3frames.take 4) initDetState =
    ⟨false, true, false, false, false, false, false, false, none, none, [], 1100, 1⟩ := by
  have h : procFrames "bicep_curls" 5 (c3frames.take 4) initDetState =
      detectStep "bicep_curls" 5 uncurlPose uncurlPose 1300
        (procFrames "bicep_curls" 5 (c3frames.take 3) initDetState) := rfl
  rw [h, c3w_s3, detectStep_bicep]
  norm_num [bicepStep, bicepLeftStep, bicepRightStep, fkUn_lw, fkUn_le, fkUn_rw,
    fkUn_re, kpAt, REP_DEBOUNCE_MS]

lemma c3w_s5 : procFrames "bicep_curls" 5 c3frames initDetState =
    ⟨false, false, false, false, false, false, false, false, none, none, [], 2000, 2⟩ := by
  have h : procFrames "bicep_curls" 5 c3frames initDetState =
      detectStep "bicep_curls" 5 uncurlPose uncurlPose 2000
        (procFrames "bicep_curls" 5 (c3frames.take 4) initDetState) := rfl
  rw [h, c3w_s4, detectStep_bicep]
  norm_num [bicepStep, bicepLeftStep, bicepRightStep, fkUn_lw, fkUn_le, fkUn_rw,
    fkUn_re, kpAt, REP_DEBOUNCE_MS]

/-- C3 counterexample: in the bicep-curl session `c3frames` the rep count
increases on the fifth frame, although the derived "curled" condition is
`false` on both the fourth and the fifth frame (the detector is steady in
the released state; the debounce window merely deferred the acceptance).
So not every detector fires strictly on a condition transition. -/
theorem C3_counterexample :
    (procFrames "bicep_curls" 5 c3frames initDetState).repsCount =
      (procFrames "bicep_curls" 5 (c3frames.take 4) initDetState).repsCount + 1 ∧
    (c3frames.get? 3).map Frame.smoothed = some uncurlPose ∧
    (c3frames.get? 4).map Frame.smoothed = some uncurlPose ∧
    bicepLeftCurled uncurlPose = some false ∧
    bicepRightCurled uncurlPose = none := by
  rw [c3w_s5, c3w_s4]
  refine ⟨rfl, rfl, rfl, ?_, rfl⟩
  norm_num [bicepLeftCurled, fkUn_lw, fkUn_le, kpAt]

lemma armsStep_edge (T : ℕ) (sm : Pose) (now : ℚ) (s : DetState)
    (h : (armsStep T sm now s).repsCount ≠ s.repsCount) :
    s.lastArmUp = false ∧ (armsStep T sm now s).lastArmUp = true := by
  unfold armsStep at *
  dsimp only at *
  split_ifs at * with hc
  · simp only [Bool.and_eq_true, Bool.not_eq_true', decide_eq_true_eq] at hc
    exact ⟨hc.1.2, hc.1.1⟩
  · exact absurd rfl h

lemma squatStep_edge (T : ℕ) (sm : Pose) (now : ℚ) (s : DetState)
    (h : (squatStep T sm now s).repsCount ≠ s.repsCount) :
    s.lastArmUp = false ∧ (squatStep T sm now s).lastArmUp = true := by
  unfold squatStep at *
  split at *
  · dsimp only at *
    rename_i lh rh ls rs _ _ _ _
    have hobs := squatObserve_spec ((ls.y + rs.y) / 2)
      (jsOrOne |(ls.y + rs.y) / 2 - (lh.y + rh.y) / 2|) s
    split_ifs at * with hc
    · simp only [Bool.and_eq_true, Bool.not_eq_true', decide_eq_true_eq] at hc
      exact ⟨hobs.2.2 ▸ hc.1.2, decide_eq_true hc.1.1⟩
    · exact absurd hobs.1 h
  · exact absurd rfl h

lemma kneeStep_edge (T : ℕ) (sm : Pose) (now : ℚ) (s : DetState)
    (h : (kneeStep T sm now s).repsCount ≠ s.repsCount) :
    s.lastArmUp = false ∧ (kneeStep T sm now s).lastArmUp = true := by
  unfold kneeStep at *
  split at *
  · dsimp only at *
    split_ifs at * with hc
    · simp only [Bool.and_eq_true, Bool.not_eq_true', decide_eq_true_eq] at hc
      exact ⟨hc.1.2, hc.1.1⟩
    · exact absurd rfl h
  · exact absurd rfl h

/-- C3 amended: the rising-edge detectors (the four wrists-above-shoulders
exercises, squats and knee raises) are strictly edge-triggered: a rep
increment happens only on a frame where the stored previous-condition flag
is `false` and the freshly derived condition is `true` (the flag becoming
`true`).  The per-arm and hysteresis detectors do not have this property:
when the debounce window defers an acceptance, they fire on a later steady
frame, as `C3_counterexample` shows. -/
theorem C3_edge_triggered_amended :
    ∀ ex ∈ ["shoulder_presses", "lateral_raise", "jumping_jacks",
            "low_to_high_chest_flies", "squats", "knee_raises"],
    ∀ (T : ℕ) (raw sm : Pose) (now : ℚ) (s : DetState),
    (detectStep ex T raw sm now s).repsCount ≠ s.repsCount →
    s.lastArmUp = false ∧ (detectStep ex T raw sm now s).lastArmUp = true := by
  intro ex hex T raw sm now s h
  fin_cases hex
  · rw [detectStep_shoulder] at *
    exact armsStep_edge T sm now s h
  · rw [detectStep_lateral] at *
    exact armsStep_edge T sm now s h
  · rw [detectStep_jacks] at *
    exact armsStep_edge T sm now s h
  · rw [detectStep_flies] at *
    exact armsStep_edge T sm now s h
  · rw [detectStep_squats] at *
    exact squatStep_edge T sm now s h
  · rw [detectStep_knee] at *
    exact kneeStep_edge T sm now s h

lemma c3amw_step : detectStep "shoulder_presses" 5 armsUpPose armsUpPose 1000 initDetState =
    ⟨true, false, false, false, false, false, false, false, none, none, [], 1000, 1⟩ := by
  rw [detectStep_shoulder]
  norm_num [armsStep, armsUp_eval, initDetState, REP_DEBOUNCE_MS]

theorem C3_witness :
    initDetState.lastArmUp = false ∧
    (detectStep "shoulder_presses" 5 armsUpPose armsUpPose 1000 initDetState).lastArmUp
      = true :=
  C3_edge_triggered_amended "shoulder_presses" (by decide) 5 armsUpPose armsUpPose 1000
    initDetState (by rw [c3amw_step]; decide)

/-! ### The squat scenario (claim C4) -/

/-- Scenario pose with both hips at height `h` and shoulders at 100. -/
def c4pose (h : ℚ) : Pose :=
  [kpAt "left_hip" 0 h, kpAt "right_hip" 10 h,
   kpAt "left_shoulder" 0 100, kpAt "right_shoulder" 10 100]

lemma fkC4_lh (h : ℚ) : findKp (c4pose h) "left_hip" = some (kpAt "left_hip" 0 h) := rfl
lemma fkC4_rh (h : ℚ) : findKp (c4pose h) "right_hip" = some (kpAt "right_hip" 10 h) := rfl
lemma fkC4_ls (h : ℚ) : findKp (c4pose h) "left_shoulder" = some (kpAt "left_shoulder" 0 100) := rfl
lemma fkC4_rs (h : ℚ) : findKp (c4pose h) "right_shoulder" = some (kpAt "right_shoulder" 10 100) := rfl

/-- Session state of the scenario: baseline captured with
`shoulderY = 100` and `torsoLength = 200` (so `waistY = 200` and the
squat threshold is 240), no rep counted yet. -/
def c4state : DetState :=
  ⟨false, false, false, false, false, false, false, true, some 100, some 200, [], 0, 0⟩

/-- The scenario frames at the literal timestamps of the spec:
hip heights 180,180,180,180,250,250,100 at 0,150,300,450,600,750,900 ms. -/
def c4frames (S : ℚ) : List Frame :=
  [⟨c4pose 180, c4pose 180, S + 0⟩, ⟨c4pose 180, c4pose 180, S + 150⟩,
   ⟨c4pose 180, c4pose 180, S + 300⟩, ⟨c4pose 180, c4pose 180, S + 450⟩,
   ⟨c4pose 250, c4pose 250, S + 600⟩, ⟨c4pose 250, c4pose 250, S + 750⟩,
   ⟨c4pose 100, c4pose 100, S + 900⟩]

/-- C4 counterexample: at the literal timestamps 0..900 ms of the spec
scenario the session counts ZERO reps, not one: `lastRepTimeRef` is
initialised to 0, so the rising edge at t = 600 fails the debounce guard
`now - lastRepTime > 800` (600 - 0 = 600 ≤ 800) and is suppressed. -/
theorem C4_counterexample :
    (procFrames "squats" 5 (c4frames 0) c4state).repsCount = 0 ∧
    (procFrames "squats" 5 (c4frames 0) c4state).repsCount ≠ 1 := by
  have h : procFrames "squats" 5 (c4frames 0) c4state =
      List.foldl (fun s f => squatStep 5 f.smoothed f.now s) c4state (c4frames 0) := rfl
  constructor <;>
    (rw [h]
     norm_num [c4frames, squatStep, squatObserve, fkC4_lh, fkC4_rh, fkC4_ls, fkC4_rs,
       kpAt, jsOrOne, c4state, REP_DEBOUNCE_MS])

/-- C4 amended: the scenario behaves as the spec expects once the session
runs at a wall-clock offset `S` with `S > 200` (true for any real
`Date.now()` clock, which dwarfs the debounce window): exactly one rep is
counted, accepted at the rising edge t = S + 600; the steady frame at
S + 750 does not re-fire and the falling edge at S + 900 does not count. -/
theorem C4_squat_scenario_amended (S : ℚ) (hS : 200 < S) :
    (procFrames "squats" 5 (c4frames S) c4state).repsCount = 1 ∧
    (procFrames "squats" 5 (c4frames S) c4state).lastRepTime = S + 600 := by
  have h : procFrames "squats" 5 (c4frames S) c4state =
      List.foldl (fun s f => squatStep 5 f.smoothed f.now s) c4state (c4frames S) := rfl
  have hd : (800 : ℚ) < S + 600 := by linarith
  constructor <;>
    (rw [h]
     norm_num [c4frames, squatStep, squatObserve, fkC4_lh, fkC4_rh, fkC4_ls, fkC4_rs,
       kpAt, jsOrOne, c4state, REP_DEBOUNCE_MS, hd])

theorem C4_witness :
    (procFrames "squats" 5 (c4frames 10000) c4state).repsCount = 1 ∧
    (procFrames "squats" 5 (c4frames 10000) c4state).lastRepTime = 10000 + 600 :=
  C4_squat_scenario_amended 10000 (by decide)

/-! ### Band pull-apart hysteresis (claim C7) -/

/-- The "wide" condition of the band pull-apart branch: horizontal wrist
separation above 1.9 times shoulder width and both wrists within half a
torso length of average shoulder height; `false` when a needed keypoint
is missing. -/
def bandWideBoth (sm : Pose) : Bool :=
  match findKp sm "left_wrist", findKp sm "right_wrist",
        findKp sm "left_shoulder", findKp sm "right_shoulder",
        findKp sm "left_hip", findKp sm "right_hip" with
  | some lw, some rw, some ls, some rs, some lh, some rh =>
      let shoulderWidth := |ls.x - rs.x|
      let avgShoulderY := (ls.y + rs.y) / 2
      let torsoLength := jsOrOne |avgShoulderY - (lh.y + rh.y) / 2|
      decide ((19 : ℚ)/10 * shoulderWidth < |lw.x - rw.x|) &&
        (decide (|lw.y - avgShoulderY| < (1 : ℚ)/2 * torsoLength) &&
         decide (|rw.y - avgShoulderY| < (1 : ℚ)/2 * torsoLength))
  | _, _, _, _, _, _ => false

lemma bandStep_count_shape (T : ℕ) (sm : Pose) (now : ℚ) (s : DetState)
    (h : (bandStep T sm now s).repsCount ≠ s.repsCount) :
    s.bandWide = true ∧ bandNarrowBoth sm = true ∧
    (bandStep T sm now s).bandWide = false := by
  unfold bandStep at *
  split at *
  · dsimp only at *
    rename_i lw rw ls rs lh rh heq1 heq2 heq3 heq4 heq5 heq6
    split_ifs at * with h1 h2
    · exact absurd rfl h
    · simp only [Bool.and_eq_true, decide_eq_true_eq] at h2
      refine ⟨h2.1.1, ?_, rfl⟩
      unfold bandNarrowBoth
      rw [heq1, heq2, heq3, heq4]
      dsimp only
      simp only [Bool.and_eq_true]
      exact h2.1.2
    · exact absurd rfl h
  · exact absurd rfl h

lemma bandStep_latch_shape (T : ℕ) (sm : Pose) (now : ℚ) (s : DetState)
    (hlatch : (bandStep T sm now s).bandWide = true) (hprev : s.bandWide = false) :
    bandWideBoth sm = true ∧ bandNarrowBoth sm = false ∧
    REP_DEBOUNCE_MS < now - s.lastRepTime := by
  unfold bandStep at *
  split at *
  · dsimp only at *
    rename_i lw rw ls rs lh rh heq1 heq2 heq3 heq4 heq5 heq6
    split_ifs at * with h1 h2
    · simp only [Bool.and_eq_true, Bool.not_eq_true', decide_eq_true_eq] at h1
      refine ⟨?_, ?_, h1.2⟩
      · unfold bandWideBoth
        rw [heq1, heq2, heq3, heq4, heq5, heq6]
        dsimp only
        simp only [Bool.and_eq_true, decide_eq_true_eq]
        exact h1.1.1.1.1
      · unfold bandNarrowBoth
        rw [heq1, heq2, heq3, heq4]
        dsimp only
        rw [h1.1.1.2]
        rfl
    · rw [hlatch] at hprev
      exact absurd hprev (by decide)
  · rw [hlatch] at hprev
    exact absurd hprev (by decide)

/-- C7: the band pull-apart detector counts exactly one rep per full
wide-then-narrow cycle.  A rep is counted only when the wide state was
latched and both wrists are back inside the narrow radius (and the latch
is consumed); the latch itself is only entered from an un-latched state
on a frame satisfying the wide condition with both wrists outside the
narrow radius; and a session whose frames never satisfy the narrow
condition never counts a rep. -/
theorem C7_band_hysteresis :
    (∀ (T : ℕ) (sm : Pose) (now : ℚ) (s : DetState),
      (bandStep T sm now s).repsCount ≠ s.repsCount →
      s.bandWide = true ∧ bandNarrowBoth sm = true ∧
      (bandStep T sm now s).bandWide = false) ∧
    (∀ (T : ℕ) (sm : Pose) (now : ℚ) (s : DetState),
      (bandStep T sm now s).bandWide = true → s.bandWide = false →
      bandWideBoth sm = true ∧ bandNarrowBoth sm = false ∧
      REP_DEBOUNCE_MS < now - s.lastRepTime) ∧
    (∀ (T : ℕ) (fr : ℕ → Frame),
      (∀ n, bandNarrowBoth (fr n).smoothed = false) →
      ∀ n, (stateAt "band_pull_aparts" T fr n).repsCount = 0) := by
  refine ⟨bandStep_count_shape, bandStep_latch_shape, ?_⟩
  intro T fr hnever n
  induction n with
  | zero => rfl
  | succ n ih =>
      by_contra hne
      have hstep : stateAt "band_pull_aparts" T fr (n + 1) =
          bandStep T (fr n).smoothed (fr n).now (stateAt "band_pull_aparts" T fr n) := by
        rw [stateAt_succ, detectStep_band]
      have hne2 : (bandStep T (fr n).smoothed (fr n).now
          (stateAt "band_pull_aparts" T fr n)).repsCount ≠
          (stateAt "band_pull_aparts" T fr n).repsCount := by
        rw [← hstep, ih]
        exact hne
      have := (bandStep_count_shape T (fr n).smoothed (fr n).now
        (stateAt "band_pull_aparts" T fr n) hne2).2.1
      rw [hnever n] at this
      exact absurd this (by decide)

/-- Session state with the wide position already latched. -/
def c7stateB : DetState :=
  ⟨false, false, false, false, false, true, false, false, none, none, [], 0, 0⟩

/-- Oscillating stream that never reaches the narrow condition. -/
def c7fr : ℕ → Frame := fun n => ⟨bandWidePose, bandWidePose, 1000 * (n + 1 : ℕ)⟩

lemma c7w_nb_wide : bandNarrowBoth bandWidePose = false := by
  norm_num [bandNarrowBoth, bandNarrow, fkBw_lw, fkBw_rw, fkBw_ls, fkBw_rs, kpAt]

lemma c7w_fire : bandStep 5 bandNarrowPose 1000 c7stateB =
    ⟨false, false, false, false, false, false, false, false, none, none, [], 1000, 1⟩ := by
  norm_num [bandStep, bandNarrow, fkBn_lw, fkBn_rw, fkBn_ls, fkBn_rs, fkBn_lh, fkBn_rh,
    kpAt, jsOrOne, c7stateB, REP_DEBOUNCE_MS]

lemma c7w_latch : bandStep 5 bandWidePose 1000 initDetState =
    ⟨false, false, false, false, false, true, false, false, none, none, [], 0, 0⟩ := by
  norm_num [bandStep, bandNarrow, fkBw_lw, fkBw_rw, fkBw_ls, fkBw_rs, fkBw_lh, fkBw_rh,
    kpAt, jsOrOne, initDetState, REP_DEBOUNCE_MS]

theorem C7_witness :
    (c7stateB.bandWide = true ∧ bandNarrowBoth bandNarrowPose = true ∧
     (bandStep 5 bandNarrowPose 1000 c7stateB).bandWide = false) ∧
    (bandWideBoth bandWidePose = true ∧ bandNarrowBoth bandWidePose = false ∧
     REP_DEBOUNCE_MS < 1000 - initDetState.lastRepTime) ∧
    (stateAt "band_pull_aparts" 5 c7fr 4).repsCount = 0 :=
  ⟨C7_band_hysteresis.1 5 bandNarrowPose 1000 c7stateB (by rw [c7w_fire]; decide),
   C7_band_hysteresis.2.1 5 bandWidePose 1000 initDetState (by rw [c7w_latch]) rfl,
   C7_band_hysteresis.2.2 5 c7fr (fun _ => c7w_nb_wide) 4⟩

/-! ### Teardown (claim C8) -/

/-- A session state at teardown time with calibration captured, all
latches set and a pending last-rep timestamp. -/
def c8state : DetState :=
  ⟨true, true, true, true, true, true, true, true, some 100, some 50, [50], 5000, 3⟩

/-- C8 counterexample: the effect cleanup does NOT reset all per-session
state to the initial values: from `c8state` it resets only `lastArmUp`
and `repsCount`, leaving the squat baseline and captured flag, the
per-arm flags, the hysteresis latches and the last-rep timestamp in
place. -/
theorem C8_counterexample :
    cleanupState c8state ≠ initDetState ∧
    (cleanupState c8state).squatBaselineCaptured = true ∧
    (cleanupState c8state).bandWide = true ∧
    (cleanupState c8state).lastLeftCurlUp = true ∧
    (cleanupState c8state).lastRepTime = 5000 := by
  refine ⟨?_, rfl, rfl, rfl, rfl⟩
  intro h
  have := congrArg DetState.squatBaselineCaptured h
  simp [cleanupState, c8state, initDetState] at this

/-- C8 amended: teardown resets exactly the last-edge flag and the rep
count; the keypoint filter map, squat baseline and captured flag,
per-arm flags, hysteresis latches and last-rep timestamp all survive into
the next session of the same mounted component.  In particular a stale
band-pull-apart latch from the previous session makes the fresh session
count a rep on its very first narrow frame, without any wide phase. -/
theorem C8_teardown_amended :
    (∀ s : DetState,
      (cleanupState s).repsCount = 0 ∧
      (cleanupState s).lastArmUp = false ∧
      (cleanupState s).lastLeftCurlUp = s.lastLeftCurlUp ∧
      (cleanupState s).lastRightCurlUp = s.lastRightCurlUp ∧
      (cleanupState s).lastLeftTricepsExtended = s.lastLeftTricepsExtended ∧
      (cleanupState s).lastRightTricepsExtended = s.lastRightTricepsExtended ∧
      (cleanupState s).bandWide = s.bandWide ∧
      (cleanupState s).svendExtended = s.svendExtended ∧
      (cleanupState s).squatBaselineCaptured = s.squatBaselineCaptured ∧
      (cleanupState s).squatBaselineShoulderY = s.squatBaselineShoulderY ∧
      (cleanupState s).squatBaselineTorsoLen = s.squatBaselineTorsoLen ∧
      (cleanupState s).squatRecentTorsoLens = s.squatRecentTorsoLens ∧
      (cleanupState s).lastRepTime = s.lastRepTime) ∧
    (detectStep "band_pull_aparts" 5 bandNarrowPose bandNarrowPose 10000
      (cleanupState c8state)).repsCount = 1 := by
  constructor
  · intro s
    exact ⟨rfl, rfl, rfl, rfl, rfl, rfl, rfl, rfl, rfl, rfl, rfl, rfl, rfl⟩
  · rw [detectStep_band]
    norm_num [bandStep, bandNarrow, fkBn_lw, fkBn_rw, fkBn_ls, fkBn_rs, fkBn_lh, fkBn_rh,
      kpAt, jsOrOne, cleanupState, c8state, REP_DEBOUNCE_MS]

/-! ### Overlay renderer (claim C9)

The overlay drawing code (lines 389-617 and the inline blocks of the
chest-fly, band and svend branches) only invokes canvas-context methods;
it never writes a detection ref.  We model it as a pure emitter of draw
primitives in canvas client coordinates (the context transform absorbs
the device pixel ratio, so primitives live in client space; dash pattern
is kept as a flag, line width as a number).  The svend threshold circles
have radius `1.5 * Math.hypot(...)`, which is irrational in general; the
`ringSq` primitive carries its square instead. -/

inductive DrawPrim where
  | clearAll
  | circle (x y r : ℚ) (fill : String)
  | ring (x y r : ℚ) (color : String) (width : ℚ) (dash : Bool)
  | ringSq (x y rSq : ℚ) (color : String) (width : ℚ) (dash : Bool)
  | seg (x1 y1 x2 y2 : ℚ) (color : String) (width : ℚ) (dash : Bool)
  | label (text : String) (x y : ℚ) (color : String)
deriving Repr, DecidableEq

/-- Primitives of the always-drawn overlay block (lines 389-617):
keypoint markers plus per-exercise guide geometry, in client
coordinates. -/
def overlayMain (ex : String) (sm : Pose) (s : DetState)
    (intrinsicW intrinsicH clientW clientH : ℚ) : List DrawPrim :=
  let mapX := fun (x : ℚ) => x / intrinsicW * clientW
  let mapY := fun (y : ℚ) => y / intrinsicH * clientH
  let circleOf := fun (k : Option KP) (r : ℚ) (c : String) =>
    match k with
    | some kp => [DrawPrim.circle (mapX kp.x) (mapY kp.y) r c]
    | none => []
  let leftShoulder := findKp sm "left_shoulder"
  let rightShoulder := findKp sm "right_shoulder"
  let leftHip := findKp sm "left_hip"
  let rightHip := findKp sm "right_hip"
  let leftWrist := findKp sm "left_wrist"
  let rightWrist := findKp sm "right_wrist"
  let leftKnee := findKp sm "left_knee"
  let rightKnee := findKp sm "right_knee"
  let leftElbow := findKp sm "left_elbow"
  let rightElbow := findKp sm "right_elbow"
  [DrawPrim.clearAll] ++
  circleOf leftShoulder 5 "rgba(255,165,0,0.95)" ++
  circleOf rightShoulder 5 "rgba(255,165,0,0.95)" ++
  circleOf leftHip 5 "rgba(76,175,80,0.95)" ++
  circleOf rightHip 5 "rgba(76,175,80,0.95)" ++
  circleOf leftWrist 4 "rgba(33,150,243,0.95)" ++
  circleOf rightWrist 4 "rgba(33,150,243,0.95)" ++
  circleOf leftKnee 3 "rgba(200,200,200,0.95)" ++
  circleOf rightKnee 3 "rgba(200,200,200,0.95)" ++
  (if ex = "shoulder_presses" ∨ ex = "lateral_raise" ∨ ex = "jumping_jacks" then
    match leftShoulder, rightShoulder, leftHip, rightHip with
    | some ls, some rs, some lh, some rh =>
        let avgShoulderY := (ls.y + rs.y) / 2
        let avgHipY := (lh.y + rh.y) / 2
        let torsoLen := max 1 |avgShoulderY - avgHipY|
        let targetOffsetFrac : ℚ := if ex = "lateral_raise" then 0 else (35 : ℚ)/100
        let targetY := avgShoulderY - targetOffsetFrac * torsoLen
        [DrawPrim.seg 0 (mapY avgShoulderY) clientW (mapY avgShoulderY)
           "rgba(255,165,0,0.9)" 2 false,
         DrawPrim.label "shoulder" 6 (max 12 (mapY avgShoulderY - 6)) "rgba(255,165,0,0.9)",
         DrawPrim.seg 0 (mapY targetY) clientW (mapY targetY) "rgba(76,175,80,0.95)" 2 true,
         DrawPrim.label
           (if ex = "lateral_raise" then "target (arm level)" else "target (arms up)")
           6 (max 12 (mapY targetY - 6)) "rgba(76,175,80,0.95)"] ++
        (match leftWrist with
         | some lw =>
             [DrawPrim.circle (mapX lw.x) (mapY lw.y) 6
               (if lw.y < ls.y then "rgba(76,175,80,0.95)" else "rgba(244,67,54,0.95)")]
         | none => []) ++
        (match rightWrist with
         | some rw =>
             [DrawPrim.circle (mapX rw.x) (mapY rw.y) 6
               (if rw.y < rs.y then "rgba(76,175,80,0.95)" else "rgba(244,67,54,0.95)")]
         | none => []) ++
        [DrawPrim.seg (mapX ls.x) (mapY ls.y) (mapX ls.x) (mapY targetY)
           "rgba(255,255,255,0.45)" 1 false,
         DrawPrim.seg (mapX rs.x) (mapY rs.y) (mapX rs.x) (mapY targetY)
           "rgba(255,255,255,0.45)" 1 false]
    | _, _, _, _ => []
  else []) ++
  (if ex = "squats" then
    match leftHip, rightHip, leftShoulder, rightShoulder with
    | some lh, some rh, some ls, some rs =>
        let avgHipY := (lh.y + rh.y) / 2
        let avgShoulderY := (ls.y + rs.y) / 2
        let baselineShoulderY := s.squatBaselineShoulderY.getD avgShoulderY
        let baselineTorso := jsOrOne (s.squatBaselineTorsoLen.getD |avgShoulderY - avgHipY|)
        let waistY := baselineShoulderY + (1 : ℚ)/2 * baselineTorso
        let squatThresholdHipY := waistY + (1 : ℚ)/5 * baselineTorso
        let drawH := fun (y : ℚ) (color lbl : String) (dash : Bool) =>
          [DrawPrim.seg 0 (mapY y) clientW (mapY y) color 2 dash,
           DrawPrim.label lbl 6 (max 12 (mapY y - 6)) color]
        drawH baselineShoulderY "rgba(255,165,0,0.9)" "baseline shoulder" true ++
        drawH waistY "rgba(255,206,84,0.9)" "waist" true ++
        drawH squatThresholdHipY "rgba(244,67,54,0.9)" "squat threshold" false ++
        [DrawPrim.circle (mapX ((lh.x + rh.x) / 2)) (mapY avgHipY) 8
          (if squatThresholdHipY ≤ avgHipY then "rgba(244,67,54,0.6)"
           else "rgba(33,150,243,0.5)")]
    | _, _, _, _ => []
  else []) ++
  (if ex = "knee_raises" then
    match leftHip, rightHip, leftShoulder, rightShoulder with
    | some lh, some rh, some ls, some rs =>
        let avgHipY := (lh.y + rh.y) / 2
        let avgShoulderY := (ls.y + rs.y) / 2
        let torsoLen := jsOrOne |avgShoulderY - avgHipY|
        let allowance := (8 : ℚ)/100 * torsoLen
        let visualTargetY := avgHipY + allowance
        [DrawPrim.seg 0 (mapY visualTargetY) clientW (mapY visualTargetY)
           "rgba(255,206,84,0.95)" 2 true,
         DrawPrim.label "hip level (target)" 6 (max 12 (mapY visualTargetY - 6))
           "rgba(255,206,84,0.95)"] ++
        (match leftKnee with
         | some lk =>
             [DrawPrim.circle (mapX lk.x) (mapY lk.y) 6
               (if lk.y < lh.y + allowance then "rgba(76,175,80,0.95)"
                else "rgba(255,165,0,0.95)")]
         | none => []) ++
        (match rightKnee with
         | some rk =>
             [DrawPrim.circle (mapX rk.x) (mapY rk.y) 6
               (if rk.y < rh.y + allowance then "rgba(76,175,80,0.95)"
                else "rgba(255,165,0,0.95)")]
         | none => [])
    | _, _, _, _ => []
  else []) ++
  (if ex = "bicep_curls" ∧ (leftElbow.isSome ∨ rightElbow.isSome) ∧
      (leftWrist.isSome ∨ rightWrist.isSome) then
    let tickHalf := max 10 (clientW * (6 : ℚ)/100)
    (match leftElbow with
     | some le =>
         [DrawPrim.seg (mapX le.x - tickHalf) (mapY le.y) (mapX le.x + tickHalf)
            (mapY le.y) "rgba(33,150,243,0.9)" 2 false]
     | none => []) ++
    (match rightElbow with
     | some re =>
         [DrawPrim.seg (mapX re.x - tickHalf) (mapY re.y) (mapX re.x + tickHalf)
            (mapY re.y) "rgba(33,150,243,0.9)" 2 false]
     | none => []) ++
    (match leftWrist, leftElbow with
     | some lw, some le =>
         [DrawPrim.circle (mapX lw.x) (mapY lw.y) 6
           (if lw.y < le.y then "rgba(76,175,80,0.95)" else "rgba(255,165,0,0.95)")]
     | _, _ => []) ++
    (match rightWrist, rightElbow with
     | some rw, some re =>
         [DrawPrim.circle (mapX rw.x) (mapY rw.y) 6
           (if rw.y < re.y then "rgba(76,175,80,0.95)" else "rgba(255,165,0,0.95)")]
     | _, _ => [])
  else []) ++
  (if ex = "triceps_extensions" then
    match findKp sm "left_eye", findKp sm "right_eye" with
    | some le, some re =>
        let avgEye := (le.y + re.y) / 2
        [DrawPrim.seg 0 (mapY avgEye) clientW (mapY avgEye) "rgba(156,39,176,0.9)" 2 true,
         DrawPrim.label "eye level (elbow must be above)" 6 (max 12 (mapY avgEye - 6))
           "rgba(156,39,176,0.9)"] ++
        (match leftElbow with
         | some lel =>
             [DrawPrim.circle (mapX lel.x) (mapY lel.y) 6
               (if lel.y < avgEye then "rgba(76,175,80,0.95)" else "rgba(244,67,54,0.95)")]
         | none => []) ++
        (match rightElbow with
         | some rel =>
             [DrawPrim.circle (mapX rel.x) (mapY rel.y) 6
               (if rel.y < avgEye then "rgba(76,175,80,0.95)" else "rgba(244,67,54,0.95)")]
         | none => []) ++
        (match leftWrist, leftElbow with
         | some lw, some lel =>
             [DrawPrim.circle (mapX lw.x) (mapY lw.y) 6
               (if lel.y < avgEye then
                  (if lw.y < lel.y then "rgba(76,175,80,0.95)" else "rgba(255,165,0,0.95)")
                else "rgba(128,128,128,0.95)")]
         | _, _ => []) ++
        (match rightWrist, rightElbow with
         | some rw, some rel =>
             [DrawPrim.circle (mapX rw.x) (mapY rw.y) 6
               (if rel.y < avgEye then
                  (if rw.y < rel.y then "rgba(76,175,80,0.95)" else "rgba(255,165,0,0.95)")
                else "rgba(128,128,128,0.95)")]
         | _, _ => [])
    | _, _ => []
  else [])

/-- Inline overlay of the chest-fly branch (lines 638-686): drawn from
the RAW keypoints, colored by the smoothed `armsAboveShoulders` value. -/
def overlayFlies (raw sm : Pose) (intrinsicW intrinsicH clientW clientH : ℚ) :
    List DrawPrim :=
  let mapX := fun (x : ℚ) => x / intrinsicW * clientW
  let mapY := fun (y : ℚ) => y / intrinsicH * clientH
  match findKp raw "left_wrist", findKp raw "right_wrist",
        findKp raw "left_shoulder", findKp raw "right_shoulder" with
  | some lw, some rw, some ls, some rs =>
      let up := armsAboveShoulders sm
      let avgShoulderY := (ls.y + rs.y) / 2
      [DrawPrim.clearAll,
       DrawPrim.seg 0 (mapY avgShoulderY) clientW (mapY avgShoulderY)
         (if up then "rgba(76,175,80,0.8)" else "rgba(255,165,0,0.8)") 3 true,
       DrawPrim.circle (mapX lw.x) (mapY lw.y) 8
         (if up then "rgba(76,175,80,0.9)" else "rgba(255,165,0,0.9)"),
       DrawPrim.circle (mapX rw.x) (mapY rw.y) 8
         (if up then "rgba(76,175,80,0.9)" else "rgba(255,165,0,0.9)"),
       DrawPrim.circle (mapX ls.x) (mapY ls.y) 6 "rgba(33,150,243,0.7)",
       DrawPrim.circle (mapX rs.x) (mapY rs.y) 6 "rgba(33,150,243,0.7)"]
  | _, _, _, _ => []

/-- Inline overlay of the band pull-apart branch (lines 905-970). -/
def overlayBand (sm : Pose) (intrinsicW intrinsicH clientW clientH : ℚ) :
    List DrawPrim :=
  let mapX := fun (x : ℚ) => x / intrinsicW * clientW
  let mapY := fun (y : ℚ) => y / intrinsicH * clientH
  let mapLen := fun (l : ℚ) => l / intrinsicW * clientW
  match findKp sm "left_wrist", findKp sm "right_wrist",
        findKp sm "left_shoulder", findKp sm "right_shoulder",
        findKp sm "left_hip", findKp sm "right_hip" with
  | some lw, some rw, some ls, some rs, some _, some _ =>
      let shoulderRadius := |ls.x - rs.x| / 2
      [DrawPrim.clearAll,
       DrawPrim.ring (mapX ls.x) (mapY ls.y) (mapLen shoulderRadius)
         "rgba(255,165,0,0.1)" 1 false,
       DrawPrim.ring (mapX rs.x) (mapY rs.y) (mapLen shoulderRadius)
         "rgba(255,165,0,0.1)" 1 false,
       DrawPrim.ring (mapX ls.x) (mapY ls.y) (mapLen (shoulderRadius * 2))
         "rgba(76,175,80,0.95)" (max 6 (1 * (18 : ℚ)/10)) true,
       DrawPrim.ring (mapX rs.x) (mapY rs.y) (mapLen (shoulderRadius * 2))
         "rgba(76,175,80,0.95)" (max 6 (1 * (18 : ℚ)/10)) true,
       DrawPrim.circle (mapX lw.x) (mapY lw.y) 6 "rgba(33,150,243,0.95)",
       DrawPrim.circle (mapX rw.x) (mapY rw.y) 6 "rgba(33,150,243,0.95)",
       DrawPrim.seg (mapX lw.x) (mapY lw.y) (mapX rw.x) (mapY rw.y)
         "rgba(255,255,255,0.6)" 2 false]
  | _, _, _, _, _, _ => []

/-- Inline overlay of the svend-press branch (lines 1010-1064), drawn
from the RAW keypoints; threshold circles carry squared radii. -/
def overlaySvend (raw : Pose) (intrinsicW intrinsicH clientW clientH : ℚ) :
    List DrawPrim :=
  let mapX := fun (x : ℚ) => x / intrinsicW * clientW
  let mapY := fun (y : ℚ) => y / intrinsicH * clientH
  let scale := clientW / intrinsicW
  match findKp raw "left_wrist", findKp raw "right_wrist",
        findKp raw "left_shoulder", findKp raw "right_shoulder",
        findKp raw "left_elbow", findKp raw "right_elbow" with
  | some lw, some rw, some ls, some rs, some le, some re =>
      let leftArmLenSq := (ls.x - le.x) ^ 2 + (ls.y - le.y) ^ 2
      let rightArmLenSq := (rs.x - re.x) ^ 2 + (rs.y - re.y) ^ 2
      let leftDistSq := (lw.x - ls.x) ^ 2 + (lw.y - ls.y) ^ 2
      let rightDistSq := (rw.x - rs.x) ^ 2 + (rw.y - rs.y) ^ 2
      let leftExtended := decide ((9 : ℚ)/4 * leftArmLenSq < leftDistSq)
      let rightExtended := decide ((9 : ℚ)/4 * rightArmLenSq < rightDistSq)
      [DrawPrim.clearAll,
       DrawPrim.ringSq (mapX ls.x) (mapY ls.y) ((9 : ℚ)/4 * leftArmLenSq * scale ^ 2)
         "rgba(33,150,243,0.6)" 2 true,
       DrawPrim.ringSq (mapX rs.x) (mapY rs.y) ((9 : ℚ)/4 * rightArmLenSq * scale ^ 2)
         "rgba(33,150,243,0.6)" 2 true,
       DrawPrim.circle (mapX ls.x) (mapY ls.y) 6 "rgba(33,150,243,0.8)",
       DrawPrim.circle (mapX rs.x) (mapY rs.y) 6 "rgba(33,150,243,0.8)",
       DrawPrim.circle (mapX lw.x) (mapY lw.y) 8
         (if leftExtended then "rgba(244,67,54,0.9)" else "rgba(76,175,80,0.9)"),
       DrawPrim.circle (mapX rw.x) (mapY rw.y) 8
         (if rightExtended then "rgba(244,67,54,0.9)" else "rgba(76,175,80,0.9)"),
       DrawPrim.seg (mapX ls.x) (mapY ls.y) (mapX lw.x) (mapY lw.y)
         "rgba(255,255,255,0.4)" 2 false,
       DrawPrim.seg (mapX rs.x) (mapY rs.y) (mapX rw.x) (mapY rw.y)
         "rgba(255,255,255,0.4)" 2 false]
  | _, _, _, _, _, _ => []

/-- All primitives drawn for one frame when an overlay canvas is
attached: the main block plus the branch-inline block of the active
exercise. -/
def framePrims (ex : String) (f : Frame) (s : DetState)
    (intrinsicW intrinsicH clientW clientH : ℚ) : List DrawPrim :=
  overlayMain ex f.smoothed s intrinsicW intrinsicH clientW clientH ++
  (if ex = "low_to_high_chest_flies" then
    overlayFlies f.raw f.smoothed intrinsicW intrinsicH clientW clientH
  else if ex = "band_pull_aparts" then
    overlayBand f.smoothed intrinsicW intrinsicH clientW clientH
  else if ex = "svend_chest_press" then
    overlaySvend f.raw intrinsicW intrinsicH clientW clientH
  else [])

/-- The per-frame pipeline: run the detection step and, when an overlay
canvas is attached, also emit the frame's draw primitives.  The overlay
reads the pre-frame state and the keypoints; it writes nothing the
detector reads. -/
def pipelineRun (overlayAttached : Bool) (ex : String) (T : ℕ)
    (intrinsicW intrinsicH clientW clientH : ℚ) :
    List Frame → DetState → List (ℕ × List DrawPrim)
  | [], _ => []
  | f :: rest, s =>
      let s' := frameStep ex T s f
      (s'.repsCount,
       if overlayAttached then framePrims ex f s intrinsicW intrinsicH clientW clientH
       else []) ::
        pipelineRun overlayAttached ex T intrinsicW intrinsicH clientW clientH rest s'

/-- C9: the overlay renderer never influences counting: for every frame
sequence, the sequence of rep counts produced with an overlay canvas
attached equals the one produced with no overlay attached (two-run
noninterference of the overlay on the count output). -/
theorem C9_overlay_noninterference (ex : String) (T : ℕ)
    (intrinsicW intrinsicH clientW clientH : ℚ) (fs : List Frame) (s : DetState) :
    (pipelineRun true ex T intrinsicW intrinsicH clientW clientH fs s).map Prod.fst =
    (pipelineRun false ex T intrinsicW intrinsicH clientW clientH fs s).map Prod.fst := by
  induction fs generalizing s with
  | nil => rfl
  | cons f rest ih =>
      simp only [pipelineRun, List.map_cons]
      exact congrArg _ (ih _)

/-! ### One-Euro keypoint smoother (claim C6)

Translation of the `OneEuroFilter` class (lines 172-221).  `Math.PI` is
the float64 constant 884279719003555 / 2^48, an exact rational.  The
float constant `1e-6` is 1/1000000 exactly.  Timestamps are passed in
milliseconds; the filter works in seconds internally. -/

/-- The exact rational value of the float64 constant `Math.PI`. -/
def piJs : ℚ := 884279719003555 / 281474976710656

/-- State of one `OneEuroFilter` instance. -/
structure EuroState where
  freq : ℚ
  minCutoff : ℚ
  beta : ℚ
  dCutoff : ℚ
  lastTime : Option ℚ
  xPrev : Option ℚ
  dxPrev : Option ℚ
deriving Repr, DecidableEq

/-- The filter instance the hook creates for every keypoint axis:
`new OneEuroFilter(30, 1.0, 0.007, 1.0)` (line 379). -/
def mkKpFilter : EuroState := ⟨30, 1, 7/1000, 1, none, none, none⟩

/-- Translation of the exponential smoothing helper `alpha(cutoff)`
 (lines 189-193). -/
def euroAlpha (freq cutoff : ℚ) : ℚ :=
  let tau := 1 / (2 * piJs * cutoff)
  let te := 1 / max (1/1000000) freq
  1 / (1 + tau / te)

/-- Translation of `filter(value, timestampMs)` (lines 196-220); returns
the filtered value and the updated state. -/
def euroFilter (st : EuroState) (value timestampMs : ℚ) : ℚ × EuroState :=
  let t := timestampMs / 1000
  let p : ℚ × Option ℚ :=
    match st.lastTime with
    | none => (st.freq, some t)
    | some lt =>
        if t ≠ lt then (1 / max (1/1000000) (t - lt), some t) else (st.freq, some lt)
  match st.xPrev with
  | none =>
      (value, { st with freq := p.1, lastTime := p.2, xPrev := some value,
                        dxPrev := some 0 })
  | some xp =>
      let dx := (value - xp) * p.1
      let edx :=
        match st.dxPrev with
        | none => dx
        | some dxp => dxp + euroAlpha p.1 st.dCutoff * (dx - dxp)
      let cutoff := st.minCutoff + st.beta * |edx|
      let a := euroAlpha p.1 cutoff
      let x := xp + a * (value - xp)
      (x, { st with freq := p.1, lastTime := p.2, xPrev := some x, dxPrev := some edx })

/-- Feeding the constant value `c` at evenly spaced timestamps
`t0 + d, t0 + 2d, ...` (milliseconds). -/
def euroRunConst (st : EuroState) (c t0 d : ℚ) : ℕ → EuroState
  | 0 => st
  | n + 1 => (euroFilter (euroRunConst st c t0 d n) c (t0 + (n + 1 : ℕ) * d)).2

/-- The filter output after `n` constant samples (the stored previous
value is exactly the last returned output). -/
def euroOut (st : EuroState) (c t0 d : ℚ) (n : ℕ) : ℚ :=
  (euroRunConst st c t0 d n).xPrev.getD 0

lemma euroFilter_first (st : EuroState) (value timestampMs : ℚ)
    (h : st.xPrev = none) : (euroFilter st value timestampMs).1 = value := by
  unfold euroFilter
  rw [h]

lemma piJs_pos : 0 < piJs := by norm_num [piJs]

lemma euroAlpha_one_sub_bound (d mc cutoff : ℚ) (hd1 : 1/1000000 ≤ d)
    (hd2 : d ≤ 1000000) (hmc : 0 < mc) (hcut : mc ≤ cutoff) :
    0 ≤ 1 - euroAlpha (1/d) cutoff ∧
    1 - euroAlpha (1/d) cutoff ≤ (1/(2*piJs*mc)) / (d + 1/(2*piJs*mc)) := by
  have hd0 : 0 < d := lt_of_lt_of_le (by norm_num) hd1
  have hc0 : 0 < cutoff := lt_of_lt_of_le hmc hcut
  have hpi := piJs_pos
  have htau0 : 0 < 1/(2*piJs*cutoff) := by positivity
  have hT0 : 0 < 1/(2*piJs*mc) := by positivity
  have htauT : 1/(2*piJs*cutoff) ≤ 1/(2*piJs*mc) := by
    apply one_div_le_one_div_of_le
    · positivity
    · nlinarith
  have hmax : max (1/1000000 : ℚ) (1/d) = 1/d := by
    apply max_eq_right
    rw [div_le_div_iff (by norm_num) hd0]
    nlinarith
  have hsub : euroAlpha (1/d) cutoff = 1/(1 + (1/(2*piJs*cutoff))/d) := by
    unfold euroAlpha
    rw [hmax, one_div_one_div]
  set τ := (1:ℚ)/(2*piJs*cutoff) with hτ
  set T := (1:ℚ)/(2*piJs*mc) with hT
  have hden : 0 < 1 + τ/d := by positivity
  have h1a : 1 - euroAlpha (1/d) cutoff = τ/(d + τ) := by
    rw [hsub]
    field_simp
  constructor
  · rw [h1a]
    positivity
  · rw [h1a]
    rw [div_le_div_iff (by positivity) (by positivity)]
    nlinarith

def tmaxOf (mc : ℚ) : ℚ := 1/(2*piJs*mc)

def rOf (mc d : ℚ) : ℚ := tmaxOf mc / (d + tmaxOf mc)

lemma contract_core (mc b E d x c : ℚ) (hmc : 0 < mc) (hb : 0 ≤ b)
    (hd1 : 1/1000000 ≤ d) (hd2 : d ≤ 1000000) :
    |x + euroAlpha (1/d) (mc + b * |E|) * (c - x) - c| ≤ rOf mc d * |x - c| := by
  have hcut : mc ≤ mc + b * |E| := le_add_of_nonneg_right (mul_nonneg hb (abs_nonneg _))
  have hbnd := euroAlpha_one_sub_bound d mc (mc + b * |E|) hd1 hd2 hmc hcut
  have hform : x + euroAlpha (1/d) (mc + b * |E|) * (c - x) - c =
      (1 - euroAlpha (1/d) (mc + b * |E|)) * (x - c) := by ring
  rw [hform, abs_mul, abs_of_nonneg hbnd.1]
  unfold rOf tmaxOf
  exact mul_le_mul_of_nonneg_right hbnd.2 (abs_nonneg _)

lemma euroStep_contract (st : EuroState) (c ms d x lt : ℚ)
    (hmc : 0 < st.minCutoff) (hb : 0 ≤ st.beta)
    (hx : st.xPrev = some x) (hlt : st.lastTime = some lt)
    (hms : ms / 1000 = lt + d)
    (hd1 : 1/1000000 ≤ d) (hd2 : d ≤ 1000000) :
    (euroFilter st c ms).2.xPrev = some ((euroFilter st c ms).1) ∧
    (euroFilter st c ms).2.lastTime = some (ms / 1000) ∧
    (euroFilter st c ms).2.minCutoff = st.minCutoff ∧
    (euroFilter st c ms).2.beta = st.beta ∧
    (euroFilter st c ms).2.dCutoff = st.dCutoff ∧
    |(euroFilter st c ms).1 - c| ≤ rOf st.minCutoff d * |x - c| := by
  have hd0 : 0 < d := lt_of_lt_of_le (by norm_num) hd1
  have hne : ms / 1000 ≠ lt := by
    rw [hms]
    intro h
    linarith
  have hsub : ms / 1000 - lt = d := by
    rw [hms]
    ring
  unfold euroFilter
  rw [hlt, hx]
  dsimp only
  rw [if_pos hne, hsub, max_eq_right hd1]
  refine ⟨rfl, rfl, rfl, rfl, rfl, ?_⟩
  exact contract_core st.minCutoff st.beta _ d x c hmc hb hd1 hd2

lemma tmaxOf_pos (mc : ℚ) (hmc : 0 < mc) : 0 < tmaxOf mc := by
  have hpi := piJs_pos
  unfold tmaxOf
  positivity

lemma rOf_nonneg (mc d : ℚ) (hmc : 0 < mc) (hd : 0 < d) : 0 ≤ rOf mc d := by
  have htm := tmaxOf_pos mc hmc
  unfold rOf
  positivity

lemma rOf_lt_one (mc d : ℚ) (hmc : 0 < mc) (hd : 0 < d) : rOf mc d < 1 := by
  have htm := tmaxOf_pos mc hmc
  unfold rOf
  rw [div_lt_one (by linarith)]
  linarith

lemma euroRun_inv (st : EuroState) (c t0 d x0 : ℚ)
    (hmc : 0 < st.minCutoff) (hb : 0 ≤ st.beta)
    (hx : st.xPrev = some x0) (hlt : st.lastTime = some (t0 / 1000))
    (hd1 : 1 ≤ d) (hd2 : d ≤ 1000000) (n : ℕ) :
    (euroRunConst st c t0 d n).minCutoff = st.minCutoff ∧
    (euroRunConst st c t0 d n).beta = st.beta ∧
    (euroRunConst st c t0 d n).lastTime = some ((t0 + (n : ℚ) * d) / 1000) ∧
    (euroRunConst st c t0 d n).xPrev = some (euroOut st c t0 d n) ∧
    |euroOut st c t0 d n - c| ≤ rOf st.minCutoff (d / 1000) ^ n * |x0 - c| := by
  induction n with
  | zero =>
      refine ⟨rfl, rfl, ?_, ?_, ?_⟩
      · rw [show euroRunConst st c t0 d 0 = st from rfl, hlt]
        norm_num
      · rw [show euroRunConst st c t0 d 0 = st from rfl, hx]
        unfold euroOut euroRunConst
        rw [hx]
        rfl
      · have h0 : euroOut st c t0 d 0 = x0 := by
          unfold euroOut euroRunConst
          rw [hx]
          rfl
        rw [h0, pow_zero, one_mul]
  | succ n ih =>
      obtain ⟨ih1, ih2, ih3, ih4, ih5⟩ := ih
      have hd1' : 1/1000000 ≤ d / 1000 := by linarith
      have hd2' : d / 1000 ≤ 1000000 := by linarith
      have hmc' : 0 < (euroRunConst st c t0 d n).minCutoff := by rw [ih1]; exact hmc
      have hb' : 0 ≤ (euroRunConst st c t0 d n).beta := by rw [ih2]; exact hb
      have hms : (t0 + ((n + 1 : ℕ) : ℚ) * d) / 1000 = (t0 + (n : ℚ) * d) / 1000 + d / 1000 := by
        push_cast
        ring
      have hc := euroStep_contract (euroRunConst st c t0 d n) c
        (t0 + ((n + 1 : ℕ) : ℚ) * d) (d / 1000) (euroOut st c t0 d n)
        ((t0 + (n : ℚ) * d) / 1000) hmc' hb' ih4 ih3 hms hd1' hd2'
      have hrun : euroRunConst st c t0 d (n + 1) =
          (euroFilter (euroRunConst st c t0 d n) c (t0 + ((n + 1 : ℕ) : ℚ) * d)).2 := rfl
      have hout : euroOut st c t0 d (n + 1) =
          (euroFilter (euroRunConst st c t0 d n) c (t0 + ((n + 1 : ℕ) : ℚ) * d)).1 := by
        unfold euroOut
        rw [hrun, hc.1]
        rfl
      refine ⟨?_, ?_, ?_, ?_, ?_⟩
      · rw [hrun, hc.2.2.1, ih1]
      · rw [hrun, hc.2.2.2.1, ih2]
      · rw [hrun, hc.2.1]
      · rw [hrun, hc.1, hout]
      · have hstep := hc.2.2.2.2.2
        rw [ih1] at hstep
        rw [hout]
        have hr0 : 0 ≤ rOf st.minCutoff (d / 1000) :=
          rOf_nonneg _ _ hmc (by linarith)
        calc |(euroFilter (euroRunConst st c t0 d n) c (t0 + ((n + 1 : ℕ) : ℚ) * d)).1 - c|
            ≤ rOf st.minCutoff (d / 1000) * |euroOut st c t0 d n - c| := hstep
          _ ≤ rOf st.minCutoff (d / 1000) * (rOf st.minCutoff (d / 1000) ^ n * |x0 - c|) :=
              mul_le_mul_of_nonneg_left ih5 hr0
          _ = rOf st.minCutoff (d / 1000) ^ (n + 1) * |x0 - c| := by ring

/-- Constant-stream witness state: previous value 10, previous timestamp 0 s. -/
def c6state : EuroState := ⟨30, 1, 0, 1, some 0, some 10, some 0⟩

/-- C6: on the first sample (no stored previous value) the One-Euro filter
returns the raw input unchanged; and for a constant input stream at evenly
spaced timestamps, the distance of the output to the constant is
non-increasing and converges to zero (below any positive tolerance from
some index on). -/
theorem C6_filter_first_and_convergence :
    (∀ (st : EuroState) (v ms : ℚ), st.xPrev = none → (euroFilter st v ms).1 = v) ∧
    ∀ (st : EuroState) (c t0 d x0 : ℚ),
      0 < st.minCutoff → 0 ≤ st.beta →
      st.xPrev = some x0 → st.lastTime = some (t0 / 1000) →
      1 ≤ d → d ≤ 1000000 →
      (∀ n : ℕ, |euroOut st c t0 d (n + 1) - c| ≤ |euroOut st c t0 d n - c|) ∧
      ∀ ε : ℚ, 0 < ε → ∃ N : ℕ, ∀ n : ℕ, N ≤ n → |euroOut st c t0 d n - c| < ε := by
  refine ⟨fun st v ms h => euroFilter_first st v ms h, ?_⟩
  intro st c t0 d x0 hmc hb hx hlt hd1 hd2
  have hd0 : (0 : ℚ) < d / 1000 := by linarith
  have hr0 : 0 ≤ rOf st.minCutoff (d / 1000) := rOf_nonneg _ _ hmc hd0
  have hr1 : rOf st.minCutoff (d / 1000) < 1 := rOf_lt_one _ _ hmc hd0
  constructor
  · intro n
    obtain ⟨ih1, ih2, ih3, ih4, _⟩ := euroRun_inv st c t0 d x0 hmc hb hx hlt hd1 hd2 n
    have hd1' : 1/1000000 ≤ d / 1000 := by linarith
    have hd2' : d / 1000 ≤ 1000000 := by linarith
    have hmc' : 0 < (euroRunConst st c t0 d n).minCutoff := by rw [ih1]; exact hmc
    have hb' : 0 ≤ (euroRunConst st c t0 d n).beta := by rw [ih2]; exact hb
    have hms : (t0 + ((n + 1 : ℕ) : ℚ) * d) / 1000 = (t0 + (n : ℚ) * d) / 1000 + d / 1000 := by
      push_cast
      ring
    have hc := euroStep_contract (euroRunConst st c t0 d n) c
      (t0 + ((n + 1 : ℕ) : ℚ) * d) (d / 1000) (euroOut st c t0 d n)
      ((t0 + (n : ℚ) * d) / 1000) hmc' hb' ih4 ih3 hms hd1' hd2'
    have hout : euroOut st c t0 d (n + 1) =
        (euroFilter (euroRunConst st c t0 d n) c (t0 + ((n + 1 : ℕ) : ℚ) * d)).1 := by
      unfold euroOut
      rw [show euroRunConst st c t0 d (n + 1) =
        (euroFilter (euroRunConst st c t0 d n) c (t0 + ((n + 1 : ℕ) : ℚ) * d)).2 from rfl,
        hc.1]
      rfl
    have hstep := hc.2.2.2.2.2
    rw [ih1] at hstep
    rw [hout]
    calc |(euroFilter (euroRunConst st c t0 d n) c (t0 + ((n + 1 : ℕ) : ℚ) * d)).1 - c|
        ≤ rOf st.minCutoff (d / 1000) * |euroOut st c t0 d n - c| := hstep
      _ ≤ 1 * |euroOut st c t0 d n - c| :=
          mul_le_mul_of_nonneg_right hr1.le (abs_nonneg _)
      _ = |euroOut st c t0 d n - c| := one_mul _
  · intro ε hε
    have hpos : (0 : ℚ) < ε / (|x0 - c| + 1) := by positivity
    obtain ⟨N, hN⟩ := exists_pow_lt_of_lt_one hpos hr1
    refine ⟨N, fun n hn => ?_⟩
    obtain ⟨_, _, _, _, h5⟩ := euroRun_inv st c t0 d x0 hmc hb hx hlt hd1 hd2 n
    have h2 : rOf st.minCutoff (d / 1000) ^ n ≤ rOf st.minCutoff (d / 1000) ^ N :=
      pow_le_pow_of_le_one hr0 hr1.le hn
    have habs : (0 : ℚ) ≤ |x0 - c| := abs_nonneg _
    have hpN : (0 : ℚ) ≤ rOf st.minCutoff (d / 1000) ^ N := pow_nonneg hr0 N
    calc |euroOut st c t0 d n - c|
        ≤ rOf st.minCutoff (d / 1000) ^ n * |x0 - c| := h5
      _ ≤ rOf st.minCutoff (d / 1000) ^ N * |x0 - c| :=
          mul_le_mul_of_nonneg_right h2 habs
      _ ≤ rOf st.minCutoff (d / 1000) ^ N * (|x0 - c| + 1) := by nlinarith
      _ < (ε / (|x0 - c| + 1)) * (|x0 - c| + 1) :=
          mul_lt_mul_of_pos_right hN (by positivity)
      _ = ε := by field_simp

theorem C6_witness :
    (euroFilter mkKpFilter 5 0).1 = 5 ∧
    |euroOut c6state 3 0 100 1 - 3| ≤ |euroOut c6state 3 0 100 0 - 3| := by
  refine ⟨C6_filter_first_and_convergence.1 mkKpFilter 5 0 rfl, ?_⟩
  exact (C6_filter_first_and_convergence.2 c6state 3 0 100 10
    (by decide) (by decide) rfl (by simp [c6state]) (by decide) (by decide)).1 0
